import Mathlib

/-!
Verification of the EVE PI layout engine (registry / parser / generator)
against its natural-language specification.

The Python sources are shallowly embedded:

* JSON-like runtime values are the inductive `Val` (null, integers, strings,
  lists, string-keyed dicts).  The numeric payloads the claims depend on
  (identifiers, one-based positions, counts, link levels, quantities) are
  integral in the wire format, so JSON numbers are modelled as `Int`;
  coordinate floats are carried opaquely (the parser copies them through
  unchanged and no claim inspects them), with the generator's rounded float
  coordinates represented in hundredths as integers.
* Python operations that can raise an uncaught exception on the inputs the
  parser actually feeds them (`len` on a non-sized value, `dict.get` /
  `set.add` with an unhashable key, `sorted` over a mixed int/str set) are
  modelled in the `PyResult` monad, whose `exn` constructor stands for an
  uncaught exception escaping `parse_pi_json`.
* The registry (`Config`) is modelled with its three association tables in
  insertion order, mirroring Python dict iteration order.
-/

namespace EvePI

/-- A Python/JSON runtime value as handled by the viewer code. -/
inductive Val where
  | null : Val
  | int : Int → Val
  | str : String → Val
  | list : List Val → Val
  | dict : List (String × Val) → Val
deriving Repr

/-- Python `is None` / `== None` tests on a value. -/
def Val.isNull : Val → Bool
  | .null => true
  | _ => false

/-- Python `==` as invoked on candidate set elements, which are always
hashable scalars by the time equality is consulted (an unhashable element
raises inside `hash` first): exact on `null`/`int`/`str`, and never consulted
on containers. -/
def scalarBeq : Val → Val → Bool
  | .null, .null => true
  | .int a, .int b => a == b
  | .str a, .str b => a == b
  | _, _ => false

/-- Key lookup in a dict value: `some v` iff the key is present (the stored
value may itself be `null`).  Non-dicts have no keys. -/
def Val.find? : Val → String → Option Val
  | .dict kvs, k => (kvs.find? (fun kv => kv.1 == k)).map (·.2)
  | _, _ => none

/-- Python `d.get(k)`: the stored value, or `None` when the key is absent. -/
def pyGet (v : Val) (k : String) : Val := (v.find? k).getD Val.null

/-- Python `d.get(k, default)`: the stored value (which may be `None`), or the
default when the key is absent. -/
def pyGetD (v : Val) (k : String) (d : Val) : Val := (v.find? k).getD d

/-- Values accepted by Python `len()` (`str`, `list`, `dict`); `len` raises
`TypeError` on the rest of `Val`. -/
def Val.isSized : Val → Bool
  | .str _ => true
  | .list _ => true
  | .dict _ => true
  | _ => false

/-- Hashable values (usable as `dict` keys / `set` elements); `list` and
`dict` raise `TypeError` when hashed. -/
def Val.hashable : Val → Bool
  | .list _ => false
  | .dict _ => false
  | _ => true

/-- Python `str()` on a value.  Scalars are exact (`str(None) = "None"`,
integers print as in Python).  Containers render as a fixed bracketed marker
rather than recursively (Python recurses, quoting strings with `repr`): the
only consumers are string-keyed table lookups, and in every claim's scope the
tables are keyed by stringified integers, which neither the real nor the
abbreviated container rendering can equal, so the same lookup branch is taken
either way. -/
def pyStr : Val → String
  | .null => "None"
  | .int n => toString n
  | .str s => s
  | .list _ => "[...]"
  | .dict _ => "\x7b...\x7d"

/-- `ps` occurs as a contiguous prefix of `cs`. -/
def charsStartWith : List Char → List Char → Bool
  | _, [] => true
  | [], _ :: _ => false
  | c :: cs, p :: ps => c == p && charsStartWith cs ps

/-- `ps` occurs contiguously somewhere in `cs`. -/
def charsContain : List Char → List Char → Bool
  | [], ps => ps.isEmpty
  | c :: cs, ps => charsStartWith (c :: cs) ps || charsContain cs ps

/-- Python `pattern in hay` on strings. -/
def strContains (hay pat : String) : Bool := charsContain hay.data pat.data

/-- Accumulate decimal digits; `none` on a non-digit. -/
def natOfDigitsGo : List Char → Nat → Option Nat
  | [], acc => some acc
  | c :: cs, acc =>
    if c.isDigit then natOfDigitsGo cs (acc * 10 + (c.toNat - 48)) else none

/-- Parse a canonical integer string (optional minus sign, then digits). -/
def strToInt? (s : String) : Option Int :=
  match s.data with
  | [] => none
  | '-' :: [] => none
  | '-' :: cs => (natOfDigitsGo cs 0).map (fun n => -(n : Int))
  | cs => (natOfDigitsGo cs 0).map (fun n => (n : Int))

/-- Python `int()` on a string, for the canonical integer strings the registry
is keyed by.  (On a non-numeric key Python raises `ValueError`; the claims
quantify over registries keyed by stringified integers, where this total
variant is exact, defaulting to `0` elsewhere.) -/
def pyIntOf (s : String) : Int := (strToInt? s).getD 0

/-- First-match association lookup, mirroring a Python dict with unique keys
iterated in insertion order. -/
def dictGet? {α : Type} (l : List (String × α)) (k : String) : Option α :=
  (l.find? (fun kv => kv.1 == k)).map (·.2)

/-- Result of running a piece of Python code: either an uncaught exception or
a value. -/
inductive PyResult (α : Type) where
  | exn : PyResult α
  | ok : α → PyResult α
deriving Repr, DecidableEq

def PyResult.bind {α β : Type} : PyResult α → (α → PyResult β) → PyResult β
  | .exn, _ => .exn
  | .ok a, f => f a

instance : Monad PyResult where
  pure := .ok
  bind := PyResult.bind

/-! ## The registry (`src/viewer/config.py`) -/

/-- One `pin_types` table entry (a dict with optional `category` / `planet`
keys). -/
structure PinTypeMeta where
  category : Option String
  planet : Option String
deriving Repr, DecidableEq

/-- The registry's three identifier tables, keyed by stringified identifiers,
kept in insertion order. -/
structure Config where
  pin_types : List (String × PinTypeMeta)
  commodities : List (String × String)
  planet_types : List (String × String)
deriving Repr, DecidableEq

/-- `Config.get_pin_type` (config.py lines 61-67). -/
def Config.get_pin_type (c : Config) (type_id : Val) : String × String :=
  let key := if type_id.isNull then "Unknown" else pyStr type_id
  match dictGet? c.pin_types key with
  | some meta => (meta.category.getD "Unknown", meta.planet.getD "Unknown")
  | none => ("Unknown", "Unknown")

/-- `Config.get_pin_type_id_by_category` (config.py lines 70-105): a pass for
the exact planet (skipped when the preferred planet is itself `"Generic"` or
`"Unknown"`), then a pass treating an absent planet mark as `"Generic"`, then
a pass treating an absent planet mark as `"Unknown"`; the matched key goes
through `int()`. -/
def Config.get_pin_type_id_by_category (c : Config) (category_name : String)
    (planet_name : String) : Option Int :=
  let pass1 : Option (String × PinTypeMeta) :=
    if planet_name ≠ "Generic" ∧ planet_name ≠ "Unknown" then
      c.pin_types.find? (fun kv =>
        kv.2.category == some category_name && kv.2.planet == some planet_name)
    else none
  match pass1 with
  | some kv => some (pyIntOf kv.1)
  | none =>
    match c.pin_types.find? (fun kv =>
        kv.2.category == some category_name && kv.2.planet.getD "Generic" == "Generic") with
    | some kv => some (pyIntOf kv.1)
    | none =>
      (c.pin_types.find? (fun kv =>
        kv.2.category == some category_name && kv.2.planet.getD "Unknown" == "Unknown")).map
        (fun kv => pyIntOf kv.1)

/-- `Config.get_commodity` (config.py lines 108-111). -/
def Config.get_commodity (c : Config) (commodity_id : Val) : String :=
  let key := if commodity_id.isNull then "Unknown" else pyStr commodity_id
  (dictGet? c.commodities key).getD ("Unknown (" ++ key ++ ")")

/-- `Config.get_schematic` (config.py lines 113-118); the `{"name": name}`
dict it builds is modelled by the name itself. -/
def Config.get_schematic (c : Config) (schematic_id : Val) : Option String :=
  let name := c.get_commodity schematic_id
  if strContains name ("Unknown (" ++ pyStr schematic_id ++ ")") then none
  else some name

/-- `Config.get_planet_name` (config.py lines 120-124). -/
def Config.get_planet_name (c : Config) (planet_id : Val) : String :=
  let lookup_id := if planet_id.isNull then "0" else pyStr planet_id
  let dflt := if planet_id.isNull then "Unknown Planet (ID Missing)"
    else "Unknown Planet (ID: " ++ lookup_id ++ ")"
  (dictGet? c.planet_types lookup_id).getD dflt

/-! ## The parser (`src/viewer/parser.py`, `parse_pi_json`) -/

/-- A parsed placement node (parser.py lines 90-101).  `type_id` is the raw
`"T"` value, or the synthetic `"Missing_<original index>"` string; `lat` /
`lon` are carried through unchanged. -/
structure ParsedPin where
  index : Nat
  original_index : Nat
  lat : Val
  lon : Val
  type_id : Val
  type_name : String
  category : String
  schematic_id : Val
  schematic_name : Option String
deriving Repr

/-- A parsed connectivity edge (parser.py lines 127-131). -/
structure ParsedLink where
  source : Nat
  target : Nat
  level : Val
deriving Repr

/-- A parsed flow edge (parser.py lines 209-215). -/
structure ParsedRoute where
  source : Nat
  target : Nat
  commodity_id : Val
  commodity_name : String
  quantity : Val
deriving Repr

/-- The parser's successful result (parser.py lines 228-239). -/
structure ParseResult where
  pins : List ParsedPin
  links : List ParsedLink
  routes : List ParsedRoute
  planet_id : Val
  planet_name : String
  unknown_commodity : List Val
  unknown_pin_type : List Val
  cmdctr : Val
  diameter : Val
  comment : Val
deriving Repr

/-- Python `set.add`: raises `TypeError` on an unhashable element; the set is
modelled as its elements in insertion order. -/
def setAdd (s : List Val) (v : Val) : PyResult (List Val) :=
  if v.hashable then .ok (if s.any (scalarBeq v) then s else s ++ [v]) else .exn

/-- Python `pin_index_map.get(v)` where the map's keys are the original
one-based positions (ints): raises on an unhashable key, otherwise returns
the mapped internal index when the key is an int present in the map. -/
def mapGet (m : List (Nat × Nat)) (v : Val) : PyResult (Option Nat) :=
  if v.hashable then
    .ok (match v with
      | .int n => (m.find? (fun kv => (kv.1 : Int) == n)).map (·.2)
      | _ => none)
  else .exn

/-- Python `sorted()` on a set's elements: never compares on lists of length
at most one; sorts homogeneous int or string elements; raises `TypeError` on
a mixed (or otherwise incomparable) population, since some cross-kind
comparison is always reached. -/
def allInts : List Val → Bool
  | [] => true
  | .int _ :: vs => allInts vs
  | _ => false

def allStrs : List Val → Bool
  | [] => true
  | .str _ :: vs => allStrs vs
  | _ => false

def valLeInt : Val → Val → Bool
  | .int a, .int b => a ≤ b
  | _, _ => true

def valLeStr : Val → Val → Bool
  | .str a, .str b => a ≤ b
  | _, _ => true

def insertLe (le : Val → Val → Bool) (v : Val) : List Val → List Val
  | [] => [v]
  | w :: ws => if le v w then v :: w :: ws else w :: insertLe le v ws

def sortLe (le : Val → Val → Bool) : List Val → List Val
  | [] => []
  | v :: vs => insertLe le v (sortLe le vs)

def pySorted (xs : List Val) : PyResult (List Val) :=
  if xs.length ≤ 1 then .ok xs
  else if allInts xs then .ok (sortLe valLeInt xs)
  else if allStrs xs then .ok (sortLe valLeStr xs)
  else .exn

/-- Accumulator of the pins loop (parser.py lines 41-44): parsed pins, the
two unknown-identifier sets, and the original-index → internal-index map. -/
structure PinAcc where
  pins : List ParsedPin
  unknownPinTypes : List Val
  unknownCommodities : List Val
  indexMap : List (Nat × Nat)
deriving Repr

/-- One iteration of the pins loop (parser.py lines 47-101) for the raw entry
at one-based position `origIndex`. -/
def parsePin (config : Config) (acc : PinAcc) (origIndex : Nat) (pin_raw : Val) :
    PyResult PinAcc :=
  match pin_raw with
  | .dict _ =>
    let t := pyGet pin_raw "T"
    let s := pyGet pin_raw "S"
    let lat := pyGetD pin_raw "La" (Val.int 0)
    let lon := pyGetD pin_raw "Lo" (Val.int 0)
    let pin_type_id := if t.isNull then Val.str ("Missing_" ++ toString origIndex) else t
    let cp := config.get_pin_type pin_type_id
    let uptStep : PyResult (List Val) :=
      if cp.1 = "Unknown" then setAdd acc.unknownPinTypes pin_type_id
      else .ok acc.unknownPinTypes
    let schStep : PyResult (List Val × Option String) :=
      if s.isNull then .ok (acc.unknownCommodities, none)
      else match config.get_schematic s with
        | some name => .ok (acc.unknownCommodities, some name)
        | none => (setAdd acc.unknownCommodities s).bind fun u => .ok (u, none)
    uptStep.bind fun upt =>
    schStep.bind fun sres =>
      let idx := acc.pins.length
      .ok { pins := acc.pins ++
              [{ index := idx, original_index := origIndex, lat := lat, lon := lon,
                 type_id := pin_type_id,
                 type_name := cp.1 ++ " (" ++ cp.2 ++ ")",
                 category := cp.1, schematic_id := s, schematic_name := sres.2 }],
            unknownPinTypes := upt, unknownCommodities := sres.1,
            indexMap := acc.indexMap ++ [(origIndex, idx)] }
  | _ => .ok acc

/-- The pins loop, enumerating raw entries from one-based position `i`. -/
def parsePinsGo (config : Config) : List Val → Nat → PinAcc → PyResult PinAcc
  | [], _, acc => .ok acc
  | v :: vs, i, acc => (parsePin config acc i v).bind (parsePinsGo config vs (i + 1))

def parsePins (config : Config) (xs : List Val) : PyResult PinAcc :=
  parsePinsGo config xs 1 ⟨[], [], [], []⟩

/-- One iteration of the links loop (parser.py lines 105-131). -/
def parseLink (m : List (Nat × Nat)) (acc : List ParsedLink) (link_raw : Val) :
    PyResult (List ParsedLink) :=
  match link_raw with
  | .dict _ =>
    let s := pyGet link_raw "S"
    let d := pyGet link_raw "D"
    let lv := pyGetD link_raw "Lv" (Val.int 0)
    if s.isNull || d.isNull then .ok acc
    else
      (mapGet m s).bind fun s0 =>
      (mapGet m d).bind fun d0 =>
      match s0, d0 with
      | some a, some b => .ok (acc ++ [{ source := a, target := b, level := lv }])
      | _, _ => .ok acc
  | _ => .ok acc

def parseLinksGo (m : List (Nat × Nat)) : List Val → List ParsedLink →
    PyResult (List ParsedLink)
  | [], acc => .ok acc
  | v :: vs, acc => (parseLink m acc v).bind (parseLinksGo m vs)

/-- Accumulator of the routes loop: parsed routes plus the shared
unknown-commodity set. -/
structure RouteAcc where
  routes : List ParsedRoute
  unknownCommodities : List Val
deriving Repr

/-- One iteration of the routes loop (parser.py lines 135-217). -/
def parseRoute (config : Config) (m : List (Nat × Nat)) (pins : List ParsedPin)
    (acc : RouteAcc) (route_raw : Val) : PyResult RouteAcc :=
  match route_raw with
  | .dict _ =>
    let path := pyGet route_raw "P"
    let s1 := pyGet route_raw "S"
    let d1 := pyGet route_raw "D"
    let t0 := pyGet route_raw "T"
    let qty := pyGetD route_raw "Qty" (Val.int 0)
    -- source endpoint (lines 151-157): prefer "S", else first path element
    let src? : Option Val :=
      if !s1.isNull then some s1
      else match path with
        | .list (p :: _) => some p
        | _ => none
    match src? with
    | none => .ok acc
    | some srcIdx =>
      -- destination endpoint (lines 159-165): prefer "D", else last path element
      let dst? : Option Val :=
        if !d1.isNull then some d1
        else match path with
          | .list ps => if 1 < ps.length then ps.getLast? else none
          | _ => none
      match dst? with
      | none => .ok acc
      | some dstIdx =>
        -- commodity id (lines 168-187): use "T", else infer from the source
        -- pin's schematic id, else drop the route
        let tStep : PyResult (Option Val) :=
          if !t0.isNull then .ok (some t0)
          else
            (mapGet m srcIdx).bind fun i? =>
            match i? with
            | none => .ok none
            | some i =>
              if h : i < pins.length then
                let pin := pins.get ⟨i, h⟩
                if !pin.schematic_id.isNull then .ok (some pin.schematic_id)
                else .ok none
              else .ok none
        tStep.bind fun t? =>
        match t? with
        | none => .ok acc
        | some t =>
          -- endpoint mapping (lines 192-199)
          (mapGet m srcIdx).bind fun s0 =>
          (mapGet m dstIdx).bind fun d0 =>
          match s0, d0 with
          | some a, some b =>
            let name := config.get_commodity t
            (if strContains name ("Unknown (" ++ pyStr t ++ ")") then
               setAdd acc.unknownCommodities t
             else .ok acc.unknownCommodities).bind fun u =>
            .ok { routes := acc.routes ++
                    [{ source := a, target := b, commodity_id := t,
                       commodity_name := name, quantity := qty }],
                  unknownCommodities := u }
          | _, _ => .ok acc
  | _ => .ok acc

def parseRoutesGo (config : Config) (m : List (Nat × Nat)) (pins : List ParsedPin) :
    List Val → RouteAcc → PyResult RouteAcc
  | [], acc => .ok acc
  | v :: vs, acc => (parseRoute config m pins acc v).bind (parseRoutesGo config m pins vs)

/-- `parse_pi_json` (parser.py lines 3-239).  `.ok none` is the explicit
`return None` for non-dict input; `.exn` is an uncaught exception.  The
`len()` calls of the logging line 29 run before the listness checks of lines
31-39, so a present but non-sized `P`/`L`/`R` value raises. -/
def parse_pi_json (data : Val) (config : Config) : PyResult (Option ParseResult) :=
  match data with
  | .dict _ =>
    let pins_data := pyGetD data "P" (Val.list [])
    let links_data := pyGetD data "L" (Val.list [])
    let routes_data := pyGetD data "R" (Val.list [])
    let planet_id := pyGet data "Pln"
    let planet_name := config.get_planet_name planet_id
    if pins_data.isSized && links_data.isSized && routes_data.isSized then
      let pins_list := match pins_data with | .list xs => xs | _ => []
      let links_list := match links_data with | .list xs => xs | _ => []
      let routes_list := match routes_data with | .list xs => xs | _ => []
      (parsePins config pins_list).bind fun acc =>
      (parseLinksGo acc.indexMap links_list []).bind fun links =>
      (parseRoutesGo config acc.indexMap acc.pins routes_list
          ⟨[], acc.unknownCommodities⟩).bind fun racc =>
      (pySorted racc.unknownCommodities).bind fun sortedComm =>
      (pySorted acc.unknownPinTypes).bind fun sortedPinT =>
      .ok (some
        { pins := acc.pins, links := links, routes := racc.routes,
          planet_id := planet_id, planet_name := planet_name,
          unknown_commodity := sortedComm, unknown_pin_type := sortedPinT,
          cmdctr := pyGet data "CmdCtrLv", diameter := pyGet data "Diam",
          comment := pyGet data "Cmt" })
    else .exn
  | _ => .ok none

/-! ## The generator (`src/viewer/generator.py`, `generate_pi_layout`)

Failure sites return `None` in Python after logging/showing a distinct
message; the `Except GenError` variants below name those distinct sites
(lines 89, 90, 111-115, 128-131, 150-153 respectively). -/

/-- One recipe-table entry (generator.py `production_data` values). -/
structure RecipeInfo where
  inputs : List Int
  tier : Int
deriving Repr, DecidableEq

inductive GenError where
  | noProductionData
  | missingAnchorIds
  | missingCategories (cats : List String)
  | capacity (requested maxSlots : Nat)
  | noRecipe (name : String)
deriving Repr, DecidableEq

def DEFAULT_PLANET_ID : Int := 2016
def DEFAULT_CMD_CTR_LVL : Int := 5
def DEFAULT_LINK_LEVEL : Int := 5
def DEFAULT_ROUTE_QTY : Int := 3000
def TOTAL_FACTORY_SLOTS : Nat := 21

/-- `TIER_TO_FACTORY_CATEGORY` (generator.py lines 14-19), as the `dict.get`
the generator applies to a recipe's tier. -/
def TIER_TO_FACTORY_CATEGORY (tier : Int) : Option String :=
  if tier = 1 then some "Basic Industrial Facility"
  else if tier = 2 ∨ tier = 3 then some "Advanced Industrial Facility"
  else if tier = 4 then some "High-Tech Industrial Facility"
  else none

/-- The per-row factory slot x-coordinates (generator.py lines 33-45), in
hundredths of the Python floats: the reversed left block then the right
block. -/
def FACTORY_ROW_XS : List Int := [-23, -17, -11, -5, 5, 11, 17]

/-- `FACTORY_SLOTS_BY_ROW`: three rows at y = 0.06, 0.0, -0.06 (hundredths). -/
def FACTORY_SLOTS_BY_ROW : List (List (Int × Int)) :=
  [6, 0, -6].map (fun y => FACTORY_ROW_XS.map (fun x => (x, y)))

/-- `production_data.get` (a Python dict with unique int keys). -/
def pdGet (pd : List (Int × RecipeInfo)) (sid : Int) : Option RecipeInfo :=
  (pd.find? (fun kv => kv.1 == sid)).map (·.2)

/-- The `commodity_name_to_id` reversal (generator.py line 133): a dict
comprehension over the commodity table, so for a duplicated name the last
table entry wins; the key goes through `int()`. -/
def commodity_name_to_id (c : Config) (name : String) : Option Int :=
  ((c.commodities.reverse).find? (fun kv => kv.2 == name)).map (fun kv => pyIntOf kv.1)

/-- The planet-type reverse map `.get` (generator.py lines 105-106): a dict
comprehension `name → key`, so for a duplicated name the last entry wins. -/
def planetRevLookup (c : Config) (name : String) : Option String :=
  ((c.planet_types.reverse).find? (fun kv => kv.2 == name)).map (·.1)

/-- The planet-inference loop (generator.py lines 100-108) over the two
anchor ids: the first anchor whose pin type resolves to a planet other than
`"Unknown"`/`"Generic"` sets the planet name; if the reverse planet-type
lookup then yields a truthy key the planet id is set and the loop breaks,
otherwise the loop continues with the name retained. -/
def inferPlanetGo (c : Config) : List Int → Int → String → Int × String
  | [], pid, pname => (pid, pname)
  | x :: rest, pid, pname =>
    let p := (c.get_pin_type (Val.int x)).2
    if p ≠ "Unknown" ∧ p ≠ "Generic" then
      match planetRevLookup c p with
      | some k => if k ≠ "" then (pyIntOf k, p) else inferPlanetGo c rest pid p
      | none => inferPlanetGo c rest pid p
    else inferPlanetGo c rest pid pname

def inferPlanet (c : Config) (storage launchpad : Int) : Int × String :=
  inferPlanetGo c [storage, launchpad] DEFAULT_PLANET_ID "Unknown"

/-- The `factory_type_ids` comprehension (generator.py line 110): one
category search per distinct factory category. -/
structure FactoryTypeIds where
  basic : Option Int
  advanced : Option Int
  hightech : Option Int
deriving Repr, DecidableEq

def factoryTypeIds (c : Config) (planet : String) : FactoryTypeIds :=
  { basic := c.get_pin_type_id_by_category "Basic Industrial Facility" planet,
    advanced := c.get_pin_type_id_by_category "Advanced Industrial Facility" planet,
    hightech := c.get_pin_type_id_by_category "High-Tech Industrial Facility" planet }

/-- `factory_type_ids.get(category)` (with a missing or `None` category
giving `None`). -/
def FactoryTypeIds.byCategory (f : FactoryTypeIds) (cat : String) : Option Int :=
  if cat = "Basic Industrial Facility" then f.basic
  else if cat = "Advanced Industrial Facility" then f.advanced
  else if cat = "High-Tech Industrial Facility" then f.hightech
  else none

/-- The `missing_cats` list (generator.py line 112), in the comprehension's
iteration order. -/
def missingCats (f : FactoryTypeIds) : List String :=
  (if f.basic = none then ["Basic Industrial Facility"] else []) ++
  (if f.advanced = none then ["Advanced Industrial Facility"] else []) ++
  (if f.hightech = none then ["High-Tech Industrial Facility"] else [])

/-- One factory-pin construction (generator.py lines 147-172): resolve the
schematic name to an id, require a recipe, pick the tier's factory type id,
and build the raw pin dict. -/
def buildFactoryPin (c : Config) (pd : List (Int × RecipeInfo)) (ftids : FactoryTypeIds)
    (name : String) (slot : Int × Int) : Except GenError (Val × Int) :=
  let sid? := commodity_name_to_id c name
  match sid?.bind (fun sid => (pdGet pd sid).map (fun r => (sid, r))) with
  | none => .error (.noRecipe name)
  | some (sid, recipe) =>
    let fid? := (TIER_TO_FACTORY_CATEGORY recipe.tier).bind ftids.byCategory
    let tval := match fid? with | some f => Val.int f | none => Val.null
    .ok (Val.dict [("T", tval), ("S", Val.int sid),
                   ("La", Val.int slot.2), ("Lo", Val.int slot.1)], sid)

/-- One row of the slot-assignment loop (generator.py lines 141-174):
consume schematic names against the row's slots, recording raw pins, the
factories' zero-based indices and their assigned schematic ids; leftover
names are handed back for the next row. -/
def buildRowFactories (c : Config) (pd : List (Int × RecipeInfo)) (ftids : FactoryTypeIds) :
    List (Int × Int) → List String → Nat →
    Except GenError (List Val × List Nat × List (Nat × Int) × List String)
  | _, [], _ => .ok ([], [], [], [])
  | [], names, _ => .ok ([], [], [], names)
  | slot :: slots, name :: names, idx =>
    (buildFactoryPin c pd ftids name slot).bind fun pr =>
    (buildRowFactories c pd ftids slots names (idx + 1)).map fun rest =>
    (pr.1 :: rest.1, idx :: rest.2.1, (idx, pr.2) :: rest.2.2.1, rest.2.2.2)

/-- The outer row loop: all three rows, threading the remaining names and
the running pin index. -/
def buildAllRows (c : Config) (pd : List (Int × RecipeInfo)) (ftids : FactoryTypeIds) :
    List (List (Int × Int)) → List String → Nat →
    Except GenError (List Val × List (List Nat) × List (Nat × Int))
  | [], _, _ => .ok ([], [], [])
  | row :: rows, names, idx =>
    (buildRowFactories c pd ftids row names idx).bind fun r =>
    (buildAllRows c pd ftids rows r.2.2.2 (idx + r.1.length)).map fun rest =>
    (r.1 ++ rest.1, r.2.1 :: rest.2.1, r.2.2.1 ++ rest.2.2)

/-- The intra-row chain links (generator.py lines 186-190), 1-based. -/
def chainLinks : List Nat → List Val
  | a :: b :: rest =>
    Val.dict [("S", Val.int ((a : Int) + 1)), ("D", Val.int ((b : Int) + 1)),
              ("Lv", Val.int DEFAULT_LINK_LEVEL)] :: chainLinks (b :: rest)
  | _ => []

/-- One row's links (generator.py lines 181-195): the chain plus the
first-factory → storage link; an empty row contributes nothing. -/
def rowLinks (storage1 : Int) (row : List Nat) : List Val :=
  match row with
  | [] => []
  | first :: _ =>
    chainLinks row ++
    [Val.dict [("S", Val.int ((first : Int) + 1)), ("D", Val.int storage1),
               ("Lv", Val.int DEFAULT_LINK_LEVEL)]]

/-- All links (generator.py lines 177-199), ending with storage → launchpad. -/
def buildLinks (byRow : List (List Nat)) (storage1 lp1 : Int) : List Val :=
  (byRow.map (rowLinks storage1)).flatten ++
  [Val.dict [("S", Val.int storage1), ("D", Val.int lp1),
             ("Lv", Val.int DEFAULT_LINK_LEVEL)]]

/-- The routes loop (generator.py lines 202-233): per factory, in assignment
order, one output route factory → launchpad followed by one input route
storage → factory per recipe input. -/
def factoryRoutes (pd : List (Int × RecipeInfo)) (storage1 lp1 : Int)
    (assigns : List (Nat × Int)) : List Val :=
  (assigns.map (fun fa =>
    let f1 : Int := (fa.1 : Int) + 1
    let out := Val.dict [("P", Val.list [Val.int f1, Val.int lp1]),
                         ("T", Val.int fa.2), ("Qty", Val.int DEFAULT_ROUTE_QTY)]
    let ins := match pdGet pd fa.2 with
      | some r => r.inputs.map (fun i =>
          Val.dict [("P", Val.list [Val.int storage1, Val.int f1]),
                    ("T", Val.int i), ("Qty", Val.int DEFAULT_ROUTE_QTY)])
      | none => []
    out :: ins)).flatten

/-- `generate_pi_layout` (generator.py lines 87-253).  The returned value is
the raw record the Python code serializes with `json.dumps` (a lossless step
on this data) for the parser to consume. -/
def generate_pi_layout (schematic_counts : List (String × Nat))
    (storage_type_id launchpad_type_id : Int) (config : Config)
    (production_data : List (Int × RecipeInfo)) : Except GenError Val :=
  if production_data = [] then .error .noProductionData
  else if storage_type_id = 0 ∨ launchpad_type_id = 0 then .error .missingAnchorIds
  else
    let pp := inferPlanet config storage_type_id launchpad_type_id
    let ftids := factoryTypeIds config pp.2
    if ftids.basic = none ∨ ftids.advanced = none ∨ ftids.hightech = none then
      .error (.missingCategories (missingCats ftids))
    else
      let total := (schematic_counts.map (·.2)).sum
      if TOTAL_FACTORY_SLOTS < total then .error (.capacity total TOTAL_FACTORY_SLOTS)
      else
        (buildAllRows config production_data ftids FACTORY_SLOTS_BY_ROW
            ((schematic_counts.map (fun nc => List.replicate nc.2 nc.1)).flatten) 2).map
        fun built =>
          let pins := Val.dict [("T", Val.int storage_type_id),
                                ("La", Val.int 0), ("Lo", Val.int 0)]
                   :: Val.dict [("T", Val.int launchpad_type_id),
                                ("La", Val.int 8), ("Lo", Val.int 0)]
                   :: built.1
          Val.dict [("P", Val.list pins),
                    ("L", Val.list (buildLinks built.2.1 1 2)),
                    ("R", Val.list (factoryRoutes production_data 1 2 built.2.2)),
                    ("Pln", Val.int pp.1),
                    ("CmdCtrLv", Val.int DEFAULT_CMD_CTR_LVL),
                    ("Diam", Val.int 100000),
                    ("Cmt", Val.str ("Generated: " ++ toString built.1.length ++
                      " Factories (Row Chain->ST->LP)"))]

/-! ## Registry save (`src/viewer/config.py`, `Config.save`)

The save routine's filesystem effects are abstracted to an event trace with
injected failure outcomes: `origExists` is the `os.path.exists(self.path)`
test of line 164, `copyFails` whether `shutil.copy2` raises (caught and
logged at lines 168-169), `writeFails` whether writing the new file raises
(logged and re-raised at lines 182-184). -/

inductive SaveEvent where
  | makeBackupDir
  | copyToBackup (dest : String) (ok : Bool)
  | writeConfig (path : String)
deriving Repr, DecidableEq

structure SaveOutcome where
  events : List SaveEvent
  raised : Bool
deriving Repr, DecidableEq

/-- `Config.save` (config.py lines 157-184) as an event trace.  The backup
destination is the timestamp-stamped path of lines 161-162, relative to the
config file's directory; the copy is attempted exactly when the persisted
file exists, its failure is swallowed, and only a write failure propagates. -/
def configSave (path timestamp : String) (origExists copyFails writeFails : Bool) :
    SaveOutcome :=
  let backupFile := "backup/config_backup_" ++ timestamp ++ ".json"
  { events := [SaveEvent.makeBackupDir] ++
      (if origExists then [SaveEvent.copyToBackup backupFile (!copyFails)] else []) ++
      [SaveEvent.writeConfig path],
    raised := writeFails }

/-! ## Spec-side reference definitions and claim-level helper predicates -/

/-- The placement-type search exactly as claim C5 words it: (a) an entry
matching both category and the preferred planet, then (b) an entry matching
the category with planet marked `"Generic"`, then (c) an entry matching the
category with planet marked `"Unknown"`; first match wins, `none` otherwise. -/
def findPlacementTypeIdClaim (c : Config) (category_name planet_name : String) :
    Option Int :=
  match c.pin_types.find? (fun kv =>
      kv.2.category == some category_name && kv.2.planet == some planet_name) with
  | some kv => some (pyIntOf kv.1)
  | none =>
    match c.pin_types.find? (fun kv =>
        kv.2.category == some category_name && kv.2.planet == some "Generic") with
    | some kv => some (pyIntOf kv.1)
    | none =>
      (c.pin_types.find? (fun kv =>
        kv.2.category == some category_name && kv.2.planet == some "Unknown")).map
        (fun kv => pyIntOf kv.1)

/-- The amended claim-C5 search: the exact tier is consulted only when the
preferred planet is not itself `"Generic"` or `"Unknown"`, and an entry with
no planet mark counts as generic in tier (b) and as unknown in tier (c). -/
def findPlacementTypeIdAmended (c : Config) (category_name planet_name : String) :
    Option Int :=
  let tierA : Option (String × PinTypeMeta) :=
    if planet_name ≠ "Generic" ∧ planet_name ≠ "Unknown" then
      c.pin_types.find? (fun kv =>
        kv.2.category == some category_name && kv.2.planet == some planet_name)
    else none
  let tierB : Option (String × PinTypeMeta) :=
    c.pin_types.find? (fun kv =>
      kv.2.category == some category_name && kv.2.planet.getD "Generic" == "Generic")
  let tierC : Option (String × PinTypeMeta) :=
    c.pin_types.find? (fun kv =>
      kv.2.category == some category_name && kv.2.planet.getD "Unknown" == "Unknown")
  ((tierA.orElse (fun _ => tierB)).orElse (fun _ => tierC)).map (fun kv => pyIntOf kv.1)

/-- The commodity id `i` resolves through the registry without tripping the
parser's placeholder pattern: `get_commodity` on it does not contain
`"Unknown (i)"`. -/
def resolvedCommodity (c : Config) (i : Int) : Prop :=
  strContains (c.get_commodity (Val.int i)) ("Unknown (" ++ toString i ++ ")") = false

/-- A requested schematic name is generatable and fully resolvable: its name
maps to a commodity id, that id has a recipe whose tier is one of the four
factory tiers, and the output id and every recipe input id resolve in the
registry. -/
def validRequestEntry (c : Config) (pd : List (Int × RecipeInfo)) (name : String) :
    Prop :=
  ∃ sid r, commodity_name_to_id c name = some sid ∧ pdGet pd sid = some r ∧
    TIER_TO_FACTORY_CATEGORY r.tier ≠ none ∧
    resolvedCommodity c sid ∧ ∀ i ∈ r.inputs, resolvedCommodity c i

/-- All three factory categories resolve to a pin type id for the planet. -/
def categoriesResolve (c : Config) (planet : String) : Prop :=
  (factoryTypeIds c planet).basic ≠ none ∧
  (factoryTypeIds c planet).advanced ≠ none ∧
  (factoryTypeIds c planet).hightech ≠ none

/-- The total number of requested production units. -/
def totalRequested (counts : List (String × Nat)) : Nat := (counts.map (·.2)).sum

/-- The number of schematic-bearing pins in a parsed pin list. -/
def countSchematicPins (ps : List ParsedPin) : Nat :=
  (ps.filter (fun p => !p.schematic_id.isNull)).length

/-- The number of production (schematic-bearing) nodes in a parsed graph. -/
def productionNodeCount (g : ParseResult) : Nat := countSchematicPins g.pins

/-- The number of schematic-bearing placement entries in a raw record. -/
def rawProductionCount (rec : Val) : Nat :=
  match pyGet rec "P" with
  | .list xs => (xs.filter (fun v => !(pyGet v "S").isNull)).length
  | _ => 0

/-- A raw placement entry of the shape the generator emits: a dict with an
integer type id and either no schematic or an integer schematic id that
resolves in the registry. -/
def GoodRawPin (c : Config) (v : Val) : Prop :=
  (∃ kvs, v = Val.dict kvs) ∧ (∃ fid, pyGet v "T" = Val.int fid) ∧
  (pyGet v "S" = Val.null ∨ ∃ sid, pyGet v "S" = Val.int sid ∧ resolvedCommodity c sid)

/-- A raw connectivity entry of the shape the generator emits: a dict with
integer endpoint fields. -/
def GoodRawLink (v : Val) : Prop :=
  (∃ kvs, v = Val.dict kvs) ∧ (∃ a, pyGet v "S" = Val.int a) ∧
  (∃ b, pyGet v "D" = Val.int b)

/-- A raw flow entry of the shape the generator emits: a dict with no
explicit endpoints, a two-element integer path, and an integer commodity id
that resolves in the registry. -/
def GoodRawRoute (c : Config) (v : Val) : Prop :=
  (∃ kvs, v = Val.dict kvs) ∧ pyGet v "S" = Val.null ∧ pyGet v "D" = Val.null ∧
  (∃ a b, pyGet v "P" = Val.list [Val.int a, Val.int b]) ∧
  (∃ t, pyGet v "T" = Val.int t ∧ resolvedCommodity c t)

/-- A factory/schematic assignment whose commodity and recipe inputs all
resolve in the registry. -/
def AssignOK (c : Config) (pd : List (Int × RecipeInfo)) (fa : Nat × Int) : Prop :=
  ∃ r, pdGet pd fa.2 = some r ∧ resolvedCommodity c fa.2 ∧
    ∀ i ∈ r.inputs, resolvedCommodity c i

/-- A registry used by the concrete witnesses below: one storage type, one
launchpad type, the three factory categories on the Barren planet, two
commodities, one planet type. -/
def sampleConfig : Config :=
  { pin_types := [("1001", ⟨some "Storage Facility", some "Barren"⟩),
                  ("1002", ⟨some "Launchpad", some "Barren"⟩),
                  ("2001", ⟨some "Basic Industrial Facility", some "Barren"⟩),
                  ("2002", ⟨some "Advanced Industrial Facility", some "Barren"⟩),
                  ("2003", ⟨some "High-Tech Industrial Facility", some "Barren"⟩)],
    commodities := [("3645", "Water"), ("2268", "Aqueous Liquids")],
    planet_types := [("2016", "Barren")] }

/-- A recipe table for the witnesses: Water is a tier-1 product with one
input. -/
def sampleRecipes : List (Int × RecipeInfo) := [(3645, ⟨[2268], 1⟩)]

/-- The shape of the raw record `generate_pi_layout` assembles (generator.py
lines 237-245), named so that the structure theorems below can state it
once: storage pin, launchpad pin, then the factory pins, with the link,
route and metadata sections. -/
def mkGeneratedRecord (storage launchpad : Int)
    (facPins linksList routesList : List Val) (planetId : Int) : Val :=
  Val.dict [("P", Val.list
        (Val.dict [("T", Val.int storage), ("La", Val.int 0), ("Lo", Val.int 0)]
          :: Val.dict [("T", Val.int launchpad), ("La", Val.int 8), ("Lo", Val.int 0)]
          :: facPins)),
      ("L", Val.list linksList),
      ("R", Val.list routesList),
      ("Pln", Val.int planetId),
      ("CmdCtrLv", Val.int DEFAULT_CMD_CTR_LVL),
      ("Diam", Val.int 100000),
      ("Cmt", Val.str ("Generated: " ++ toString facPins.length ++
        " Factories (Row Chain->ST->LP)"))]

/-- The graph obtained by parsing a concrete two-pin record (one storage
pin, one Water factory, a link between them and one route) against
`sampleConfig`; used as a concrete parse output below. -/
def parseResultC10Witness : ParseResult :=
  { pins := [{ index := 0, original_index := 1, lat := Val.int 0, lon := Val.int 0,
               type_id := Val.int 1001, type_name := "Storage Facility (Barren)",
               category := "Storage Facility", schematic_id := Val.null,
               schematic_name := none },
             { index := 1, original_index := 2, lat := Val.int 0, lon := Val.int 0,
               type_id := Val.int 2001,
               type_name := "Basic Industrial Facility (Barren)",
               category := "Basic Industrial Facility",
               schematic_id := Val.int 3645, schematic_name := some "Water" }],
    links := [{ source := 0, target := 1, level := Val.int 5 }],
    routes := [{ source := 1, target := 0, commodity_id := Val.int 3645,
                 commodity_name := "Water", quantity := Val.int 3000 }],
    planet_id := Val.null, planet_name := "Unknown Planet (ID Missing)",
    unknown_commodity := [], unknown_pin_type := [],
    cmdctr := Val.null, diameter := Val.null, comment := Val.null }

/-! ## Theorems -/

/-- Auxiliary: `scalarBeq` against an integer value decides equality. -/
theorem scalarBeq_int_iff (t : Int) (v : Val) :
    scalarBeq (Val.int t) v = true ↔ v = Val.int t := by
  cases v with
  | int n =>
    simp only [scalarBeq, beq_iff_eq]
    constructor
    · intro h; rw [h]
    · intro h; injection h with h2; rw [h2]
  | null => simp [scalarBeq]
  | str s => simp [scalarBeq]
  | list xs => simp [scalarBeq]
  | dict kvs => simp [scalarBeq]

/-- C1: the spec says the parser fails only for non-record input and for a
present but non-list `P`/`L`/`R` substitutes an empty sequence; the code
instead calls `len()` on the raw section value (parser.py line 29) before
the listness checks (lines 31-39), so `{"P": 5}` raises `TypeError`; and a
record mixing a missing type id (synthetic string placeholder) with an
unknown integer type id makes the final `sorted()` (line 223) compare `str`
with `int` and raise.  Non-record input does return the failure value. -/
theorem C1_parser_crash_on_missing_or_unknown :
    parse_pi_json (Val.dict [("P", Val.int 5)]) ⟨[], [], []⟩ = PyResult.exn ∧
    parse_pi_json (Val.int 5) ⟨[], [], []⟩ = PyResult.ok none ∧
    parse_pi_json
      (Val.dict [("P", Val.list [Val.dict [], Val.dict [("T", Val.int 500)]])])
      ⟨[], [], []⟩ = PyResult.exn :=
  ⟨rfl, rfl, rfl⟩

/-- C5 counterexample: with an Unknown-marked exact match listed before a
Generic-marked entry and preferred planet `"Unknown"`, the code skips the
exact pass and returns the Generic entry (9), while the claim's tier order
(a)-(b)-(c) selects the exact match (7). -/
theorem C5_counterexample_unknown_preferred :
    Config.get_pin_type_id_by_category
      ⟨[("7", ⟨some "Cat", some "Unknown"⟩), ("9", ⟨some "Cat", some "Generic"⟩)], [], []⟩
      "Cat" "Unknown" = some 9 ∧
    findPlacementTypeIdClaim
      ⟨[("7", ⟨some "Cat", some "Unknown"⟩), ("9", ⟨some "Cat", some "Generic"⟩)], [], []⟩
      "Cat" "Unknown" = some 7 :=
  ⟨rfl, rfl⟩

/-- C5 (amended): the search equals the three-tier first-match search in
which the exact tier is consulted only when the preferred planet is not
itself `"Generic"`/`"Unknown"`, and an entry with no planet mark counts as
generic in tier (b) and unknown in tier (c); in particular it returns `none`
rather than failing when no tier matches. -/
theorem C5_placement_search_amended (c : Config) (category_name planet_name : String) :
    c.get_pin_type_id_by_category category_name planet_name =
      findPlacementTypeIdAmended c category_name planet_name := by
  unfold Config.get_pin_type_id_by_category findPlacementTypeIdAmended
  dsimp only
  cases (if planet_name ≠ "Generic" ∧ planet_name ≠ "Unknown" then
      c.pin_types.find? (fun kv =>
        kv.2.category == some category_name && kv.2.planet == some planet_name)
    else none) <;>
  cases (c.pin_types.find? (fun kv =>
      kv.2.category == some category_name && kv.2.planet.getD "Generic" == "Generic")) <;>
  cases (c.pin_types.find? (fun kv =>
      kv.2.category == some category_name && kv.2.planet.getD "Unknown" == "Unknown")) <;>
  rfl

/-- C9: every save on an existing store first copies it to the
timestamp-stamped backup path and only then writes the new file; a write
failure is propagated to the caller while a copy failure alone never is. -/
theorem C9_save_backup_then_write (path ts : String) (copyFails writeFails : Bool) :
    (configSave path ts true copyFails writeFails).events =
      [SaveEvent.makeBackupDir,
       SaveEvent.copyToBackup ("backup/config_backup_" ++ ts ++ ".json") (!copyFails),
       SaveEvent.writeConfig path] ∧
    (configSave path ts false copyFails writeFails).events =
      [SaveEvent.makeBackupDir, SaveEvent.writeConfig path] ∧
    ∀ origExists, (configSave path ts origExists copyFails writeFails).raised = writeFails :=
  ⟨rfl, rfl, fun _ => rfl⟩

/-- C7: an identifier absent from the commodity table resolves to the
deterministic placeholder `"Unknown (<id>)"`; and at the parser's route
step the unresolved-commodity set receives the id exactly when the resolved
name matches that placeholder pattern. -/
theorem C7_placeholder_and_detection (c : Config) :
    (∀ i : Int, dictGet? c.commodities (toString i) = none →
      c.get_commodity (Val.int i) = "Unknown (" ++ toString i ++ ")") ∧
    (∀ (m : List (Nat × Nat)) (pins : List ParsedPin) (acc : RouteAcc)
        (kvs : List (String × Val)) (sv dv : Val) (i j : Nat) (t : Int),
      pyGet (Val.dict kvs) "T" = Val.int t →
      pyGet (Val.dict kvs) "S" = sv → sv ≠ Val.null →
      pyGet (Val.dict kvs) "D" = dv → dv ≠ Val.null →
      mapGet m sv = .ok (some i) →
      mapGet m dv = .ok (some j) →
      ∃ u, parseRoute c m pins acc (Val.dict kvs) = .ok
          { routes := acc.routes ++
              [{ source := i, target := j, commodity_id := Val.int t,
                 commodity_name := c.get_commodity (Val.int t),
                 quantity := pyGetD (Val.dict kvs) "Qty" (Val.int 0) }],
            unknownCommodities := u } ∧
        (Val.int t ∈ u ↔
          (strContains (c.get_commodity (Val.int t)) ("Unknown (" ++ toString t ++ ")") = true
            ∨ Val.int t ∈ acc.unknownCommodities))) := by
  constructor
  · intro i habs
    simp [Config.get_commodity, Val.isNull, pyStr, habs]
  · intro m pins acc kvs sv dv i j t hT hS hSne hD hDne hi hj
    have hsv : sv.isNull = false := by
      cases sv <;> simp [Val.isNull] at hSne ⊢
    have hdv : dv.isNull = false := by
      cases dv <;> simp [Val.isNull] at hDne ⊢
    by_cases hpat : strContains (c.get_commodity (Val.int t))
        ("Unknown (" ++ toString t ++ ")") = true
    · refine ⟨if acc.unknownCommodities.any (scalarBeq (Val.int t))
          then acc.unknownCommodities else acc.unknownCommodities ++ [Val.int t], ?_, ?_⟩
      · simp [parseRoute, hT, hS, hD, hsv, hdv, Val.isNull, hi, hj, PyResult.bind,
          hpat, pyStr, setAdd, Val.hashable]
      · by_cases hany : acc.unknownCommodities.any (scalarBeq (Val.int t)) = true
        · rcases List.any_eq_true.mp hany with ⟨v, hv, hb⟩
          rw [scalarBeq_int_iff] at hb
          subst hb
          simp [hany, hpat, hv]
        · simp [hany, hpat]
    · refine ⟨acc.unknownCommodities, ?_, ?_⟩
      · simp [parseRoute, hT, hS, hD, hsv, hdv, Val.isNull, hi, hj, PyResult.bind,
          hpat, pyStr]
      · simp [hpat]

/-- C4: for a flow entry with no commodity id whose source endpoint maps to
pin `i`: if that pin carries a schematic id `x` the parsed route's commodity
id is `x` (and the route is emitted once the destination also maps); if the
pin has no schematic the route is dropped and the accumulator is returned
unchanged. -/
theorem C4_route_commodity_from_source_schematic (c : Config)
    (m : List (Nat × Nat)) (pins : List ParsedPin) (acc : RouteAcc)
    (kvs : List (String × Val)) (sv dv : Val) (i j : Nat)
    (hT : pyGet (Val.dict kvs) "T" = Val.null)
    (hS : pyGet (Val.dict kvs) "S" = sv) (hSne : sv ≠ Val.null)
    (hD : pyGet (Val.dict kvs) "D" = dv) (hDne : dv ≠ Val.null)
    (hi : mapGet m sv = .ok (some i)) (hlt : i < pins.length)
    (hj : mapGet m dv = .ok (some j)) :
    (∀ x : Int, (pins.get ⟨i, hlt⟩).schematic_id = Val.int x →
      ∃ u, parseRoute c m pins acc (Val.dict kvs) = .ok
        { routes := acc.routes ++
            [{ source := i, target := j, commodity_id := Val.int x,
               commodity_name := c.get_commodity (Val.int x),
               quantity := pyGetD (Val.dict kvs) "Qty" (Val.int 0) }],
          unknownCommodities := u }) ∧
    ((pins.get ⟨i, hlt⟩).schematic_id = Val.null →
      parseRoute c m pins acc (Val.dict kvs) = .ok acc) := by
  have hsv : sv.isNull = false := by
    cases sv <;> simp [Val.isNull] at hSne ⊢
  have hdv : dv.isNull = false := by
    cases dv <;> simp [Val.isNull] at hDne ⊢
  constructor
  · intro x hx
    rw [List.get_eq_getElem] at hx
    by_cases hpat : strContains (c.get_commodity (Val.int x))
        ("Unknown (" ++ toString x ++ ")") = true
    · refine ⟨if acc.unknownCommodities.any (scalarBeq (Val.int x))
          then acc.unknownCommodities else acc.unknownCommodities ++ [Val.int x], ?_⟩
      simp [parseRoute, hT, hS, hD, hsv, hdv, Val.isNull, hi, hj, PyResult.bind,
        hlt, hx, hpat, pyStr, setAdd, Val.hashable]
    · refine ⟨acc.unknownCommodities, ?_⟩
      simp [parseRoute, hT, hS, hD, hsv, hdv, Val.isNull, hi, hj, PyResult.bind,
        hlt, hx, hpat, pyStr]
  · intro hx
    rw [List.get_eq_getElem] at hx
    simp [parseRoute, hT, hS, hD, hsv, hdv, Val.isNull, hi, hj, PyResult.bind,
      hlt, hx]

/-- C8: for a flow entry with both explicit endpoints omitted and a legacy
path of length at least two, the parser takes the path's first element as
the source endpoint and its last element as the destination endpoint (here
witnessed by the emitted route's endpoints being their mappings). -/
theorem C8_route_endpoints_from_path (c : Config)
    (m : List (Nat × Nat)) (pins : List ParsedPin) (acc : RouteAcc)
    (kvs : List (String × Val)) (qs : List Val) (p0 pl : Val) (i j : Nat) (t : Int)
    (hS : pyGet (Val.dict kvs) "S" = Val.null)
    (hD : pyGet (Val.dict kvs) "D" = Val.null)
    (hP : pyGet (Val.dict kvs) "P" = Val.list (p0 :: qs))
    (hlen : 2 ≤ (p0 :: qs).length)
    (hlast : (p0 :: qs).getLast? = some pl)
    (hT : pyGet (Val.dict kvs) "T" = Val.int t)
    (hi : mapGet m p0 = .ok (some i))
    (hj : mapGet m pl = .ok (some j)) :
    ∃ u, parseRoute c m pins acc (Val.dict kvs) = .ok
      { routes := acc.routes ++
          [{ source := i, target := j, commodity_id := Val.int t,
             commodity_name := c.get_commodity (Val.int t),
             quantity := pyGetD (Val.dict kvs) "Qty" (Val.int 0) }],
        unknownCommodities := u } := by
  have hlen2 : 1 < (p0 :: qs).length := by
    simpa using hlen
  have hq : 0 < qs.length := by
    simpa using hlen2
  by_cases hpat : strContains (c.get_commodity (Val.int t))
      ("Unknown (" ++ toString t ++ ")") = true
  · refine ⟨if acc.unknownCommodities.any (scalarBeq (Val.int t))
        then acc.unknownCommodities else acc.unknownCommodities ++ [Val.int t], ?_⟩
    simp [parseRoute, hT, hS, hD, hP, Val.isNull, hlen2, hq, hlast, hi, hj,
      PyResult.bind, hpat, pyStr, setAdd, Val.hashable]
  · refine ⟨acc.unknownCommodities, ?_⟩
    simp [parseRoute, hT, hS, hD, hP, Val.isNull, hlen2, hq, hlast, hi, hj,
      PyResult.bind, hpat, pyStr]

/-- Auxiliary: `scalarBeq` against a string value decides equality. -/
theorem scalarBeq_str_iff (k : String) (v : Val) :
    scalarBeq (Val.str k) v = true ↔ v = Val.str k := by
  cases v with
  | str s =>
    simp only [scalarBeq, beq_iff_eq]
    constructor
    · intro h; rw [h]
    · intro h; injection h with h2; rw [h2]
  | null => simp [scalarBeq]
  | int n => simp [scalarBeq]
  | list xs => simp [scalarBeq]
  | dict kvs => simp [scalarBeq]

/-- Auxiliary: an element is a member of the list produced by the Python
set-add, given that `scalarBeq` against it decides equality. -/
theorem mem_setAdd_list (s : List Val) (v : Val)
    (hv : ∀ w, scalarBeq v w = true ↔ w = v) :
    v ∈ (if s.any (scalarBeq v) then s else s ++ [v]) := by
  by_cases h : s.any (scalarBeq v) = true
  · rcases List.any_eq_true.mp h with ⟨w, hw, hb⟩
    rw [hv] at hb
    subst hb
    simpa [h] using hw
  · simp [h]

/-- C6: a structured placement entry with no type id still occupies the next
internal index under the synthetic `"Missing_<original index>"` id, resolves
to category `"Unknown"` and lands in the unresolved-placement-type set (the
synthetic key being absent from the integer-keyed registry); and a declared
integer type id absent from the registry likewise yields category
`"Unknown"` and membership in that set. -/
theorem C6_missing_or_unknown_type_id (c : Config) (acc : PinAcc) (origIndex : Nat)
    (kvs : List (String × Val)) :
    (pyGet (Val.dict kvs) "T" = Val.null →
     dictGet? c.pin_types ("Missing_" ++ toString origIndex) = none →
     pyGet (Val.dict kvs) "S" = Val.null →
     ∃ upt, parsePin c acc origIndex (Val.dict kvs) = .ok
        { pins := acc.pins ++
            [{ index := acc.pins.length, original_index := origIndex,
               lat := pyGetD (Val.dict kvs) "La" (Val.int 0),
               lon := pyGetD (Val.dict kvs) "Lo" (Val.int 0),
               type_id := Val.str ("Missing_" ++ toString origIndex),
               type_name := "Unknown (Unknown)", category := "Unknown",
               schematic_id := Val.null, schematic_name := none }],
          unknownPinTypes := upt,
          unknownCommodities := acc.unknownCommodities,
          indexMap := acc.indexMap ++ [(origIndex, acc.pins.length)] } ∧
        Val.str ("Missing_" ++ toString origIndex) ∈ upt) ∧
    (∀ n : Int, pyGet (Val.dict kvs) "T" = Val.int n →
     dictGet? c.pin_types (toString n) = none →
     (pyGet (Val.dict kvs) "S" = Val.null ∨
       ∃ sid : Int, pyGet (Val.dict kvs) "S" = Val.int sid) →
     ∃ upt ucomm sname, parsePin c acc origIndex (Val.dict kvs) = .ok
        { pins := acc.pins ++
            [{ index := acc.pins.length, original_index := origIndex,
               lat := pyGetD (Val.dict kvs) "La" (Val.int 0),
               lon := pyGetD (Val.dict kvs) "Lo" (Val.int 0),
               type_id := Val.int n,
               type_name := "Unknown (Unknown)", category := "Unknown",
               schematic_id := pyGet (Val.dict kvs) "S", schematic_name := sname }],
          unknownPinTypes := upt, unknownCommodities := ucomm,
          indexMap := acc.indexMap ++ [(origIndex, acc.pins.length)] } ∧
        Val.int n ∈ upt) := by
  constructor
  · intro hT hreg hS
    have hpt : c.get_pin_type (Val.str ("Missing_" ++ toString origIndex)) =
        ("Unknown", "Unknown") := by
      simp [Config.get_pin_type, Val.isNull, pyStr, hreg]
    refine ⟨if acc.unknownPinTypes.any
          (scalarBeq (Val.str ("Missing_" ++ toString origIndex)))
        then acc.unknownPinTypes
        else acc.unknownPinTypes ++ [Val.str ("Missing_" ++ toString origIndex)], ?_, ?_⟩
    · simp [parsePin, hT, hS, Val.isNull, hpt, setAdd, Val.hashable, PyResult.bind]
    · exact mem_setAdd_list _ _ (scalarBeq_str_iff _)
  · intro n hT hreg hs
    have hpt : c.get_pin_type (Val.int n) = ("Unknown", "Unknown") := by
      simp [Config.get_pin_type, Val.isNull, pyStr, hreg]
    rcases hs with hs | ⟨sid, hs⟩
    · refine ⟨if acc.unknownPinTypes.any (scalarBeq (Val.int n))
          then acc.unknownPinTypes else acc.unknownPinTypes ++ [Val.int n],
        acc.unknownCommodities, none, ?_, ?_⟩
      · simp [parsePin, hT, hs, Val.isNull, hpt, setAdd, Val.hashable, PyResult.bind]
      · exact mem_setAdd_list _ _ (scalarBeq_int_iff _)
    · cases hsch : c.get_schematic (Val.int sid) with
      | some name =>
        refine ⟨if acc.unknownPinTypes.any (scalarBeq (Val.int n))
            then acc.unknownPinTypes else acc.unknownPinTypes ++ [Val.int n],
          acc.unknownCommodities, some name, ?_, ?_⟩
        · simp [parsePin, hT, hs, Val.isNull, hpt, hsch, setAdd, Val.hashable,
            PyResult.bind]
        · exact mem_setAdd_list _ _ (scalarBeq_int_iff _)
      | none =>
        refine ⟨if acc.unknownPinTypes.any (scalarBeq (Val.int n))
            then acc.unknownPinTypes else acc.unknownPinTypes ++ [Val.int n],
          if acc.unknownCommodities.any (scalarBeq (Val.int sid))
            then acc.unknownCommodities else acc.unknownCommodities ++ [Val.int sid],
          none, ?_, ?_⟩
        · simp [parsePin, hT, hs, Val.isNull, hpt, hsch, setAdd, Val.hashable,
            PyResult.bind]
        · exact mem_setAdd_list _ _ (scalarBeq_int_iff _)

/-- Witness for C7 at a concrete unknown commodity id. -/
theorem C7_witness :
    (sampleConfig.get_commodity (Val.int 999) = "Unknown (" ++ toString (999 : Int) ++ ")") ∧
    (∃ u, parseRoute sampleConfig [(1, 0), (2, 1)] [] ⟨[], []⟩
        (Val.dict [("S", Val.int 1), ("D", Val.int 2), ("T", Val.int 999)]) = .ok
        { routes := [] ++
            [{ source := 0, target := 1, commodity_id := Val.int 999,
               commodity_name := sampleConfig.get_commodity (Val.int 999),
               quantity := pyGetD
                 (Val.dict [("S", Val.int 1), ("D", Val.int 2), ("T", Val.int 999)])
                 "Qty" (Val.int 0) }],
          unknownCommodities := u } ∧
        (Val.int 999 ∈ u ↔
          (strContains (sampleConfig.get_commodity (Val.int 999))
              ("Unknown (" ++ toString (999 : Int) ++ ")") = true
            ∨ Val.int 999 ∈ (⟨[], []⟩ : RouteAcc).unknownCommodities))) := by
  refine ⟨(C7_placeholder_and_detection sampleConfig).1 999 rfl, ?_⟩
  exact (C7_placeholder_and_detection sampleConfig).2
    [(1, 0), (2, 1)] [] ⟨[], []⟩
    [("S", Val.int 1), ("D", Val.int 2), ("T", Val.int 999)]
    (Val.int 1) (Val.int 2) 0 1 999
    rfl rfl (fun h => Val.noConfusion h) rfl (fun h => Val.noConfusion h) rfl rfl

/-- Witness for C4 at a concrete route with a missing commodity id, for both
the inference case and the drop case. -/
theorem C4_witness :
    (∃ u, parseRoute sampleConfig [(1, 0)]
        [{ index := 0, original_index := 1, lat := Val.int 0, lon := Val.int 0,
           type_id := Val.int 2001, type_name := "n", category := "c",
           schematic_id := Val.int 42, schematic_name := none }]
        ⟨[], []⟩ (Val.dict [("S", Val.int 1), ("D", Val.int 1)]) = .ok
        { routes := [] ++
            [{ source := 0, target := 0, commodity_id := Val.int 42,
               commodity_name := sampleConfig.get_commodity (Val.int 42),
               quantity := pyGetD (Val.dict [("S", Val.int 1), ("D", Val.int 1)])
                 "Qty" (Val.int 0) }],
          unknownCommodities := u }) ∧
    parseRoute sampleConfig [(1, 0)]
        [{ index := 0, original_index := 1, lat := Val.int 0, lon := Val.int 0,
           type_id := Val.int 1001, type_name := "n", category := "c",
           schematic_id := Val.null, schematic_name := none }]
        ⟨[], []⟩ (Val.dict [("S", Val.int 1), ("D", Val.int 1)]) = .ok ⟨[], []⟩ := by
  constructor
  · exact (C4_route_commodity_from_source_schematic sampleConfig [(1, 0)]
      [{ index := 0, original_index := 1, lat := Val.int 0, lon := Val.int 0,
         type_id := Val.int 2001, type_name := "n", category := "c",
         schematic_id := Val.int 42, schematic_name := none }]
      ⟨[], []⟩ [("S", Val.int 1), ("D", Val.int 1)] (Val.int 1) (Val.int 1) 0 0
      rfl rfl (fun h => Val.noConfusion h) rfl (fun h => Val.noConfusion h)
      rfl (by decide) rfl).1 42 rfl
  · exact (C4_route_commodity_from_source_schematic sampleConfig [(1, 0)]
      [{ index := 0, original_index := 1, lat := Val.int 0, lon := Val.int 0,
         type_id := Val.int 1001, type_name := "n", category := "c",
         schematic_id := Val.null, schematic_name := none }]
      ⟨[], []⟩ [("S", Val.int 1), ("D", Val.int 1)] (Val.int 1) (Val.int 1) 0 0
      rfl rfl (fun h => Val.noConfusion h) rfl (fun h => Val.noConfusion h)
      rfl (by decide) rfl).2 rfl

/-- Witness for C8 at a concrete legacy-path route. -/
theorem C8_witness :
    ∃ u, parseRoute sampleConfig [(3, 0), (2, 1)] [] ⟨[], []⟩
        (Val.dict [("P", Val.list [Val.int 3, Val.int 2]), ("T", Val.int 3645)]) = .ok
      { routes := [] ++
          [{ source := 0, target := 1, commodity_id := Val.int 3645,
             commodity_name := sampleConfig.get_commodity (Val.int 3645),
             quantity := pyGetD
               (Val.dict [("P", Val.list [Val.int 3, Val.int 2]), ("T", Val.int 3645)])
               "Qty" (Val.int 0) }],
        unknownCommodities := u } :=
  C8_route_endpoints_from_path sampleConfig [(3, 0), (2, 1)] [] ⟨[], []⟩
    [("P", Val.list [Val.int 3, Val.int 2]), ("T", Val.int 3645)]
    [Val.int 2] (Val.int 3) (Val.int 2) 0 1 3645
    rfl rfl rfl (by decide) rfl rfl rfl rfl

/-- Witness for C6 at a concrete missing-type entry and a concrete unknown
declared type id. -/
theorem C6_witness :
    (∃ upt, parsePin sampleConfig ⟨[], [], [], []⟩ 1 (Val.dict []) = .ok
        { pins := [] ++
            [{ index := 0, original_index := 1,
               lat := Val.int 0, lon := Val.int 0,
               type_id := Val.str ("Missing_" ++ toString 1),
               type_name := "Unknown (Unknown)", category := "Unknown",
               schematic_id := Val.null, schematic_name := none }],
          unknownPinTypes := upt, unknownCommodities := [],
          indexMap := [] ++ [(1, 0)] } ∧
        Val.str ("Missing_" ++ toString 1) ∈ upt) ∧
    (∃ upt ucomm sname, parsePin sampleConfig ⟨[], [], [], []⟩ 1
        (Val.dict [("T", Val.int 777)]) = .ok
        { pins := [] ++
            [{ index := 0, original_index := 1,
               lat := Val.int 0, lon := Val.int 0,
               type_id := Val.int 777,
               type_name := "Unknown (Unknown)", category := "Unknown",
               schematic_id := pyGet (Val.dict [("T", Val.int 777)]) "S",
               schematic_name := sname }],
          unknownPinTypes := upt, unknownCommodities := ucomm,
          indexMap := [] ++ [(1, 0)] } ∧
        Val.int 777 ∈ upt) := by
  constructor
  · exact (C6_missing_or_unknown_type_id sampleConfig ⟨[], [], [], []⟩ 1 []).1
      rfl rfl rfl
  · exact (C6_missing_or_unknown_type_id sampleConfig ⟨[], [], [], []⟩ 1
      [("T", Val.int 777)]).2 777 rfl rfl (Or.inl rfl)

/-- Auxiliary: inverting a successful `PyResult.bind`. -/
theorem PyResult.bind_ok {α β : Type} {x : PyResult α} {f : α → PyResult β} {b : β}
    (h : PyResult.bind x f = .ok b) : ∃ a, x = .ok a ∧ f a = .ok b := by
  cases x with
  | exn => simp [PyResult.bind] at h
  | ok a => exact ⟨a, rfl, h⟩

/-- Auxiliary: a successful `mapGet` hit names an entry of the map. -/
theorem mapGet_ok_some {m : List (Nat × Nat)} {v : Val} {a : Nat}
    (h : mapGet m v = .ok (some a)) : ∃ kv ∈ m, kv.2 = a := by
  unfold mapGet at h
  split at h
  · cases v with
    | int n =>
      simp only [PyResult.ok.injEq] at h
      cases hf : m.find? (fun kv => (kv.1 : Int) == n) with
      | none => rw [hf] at h; simp at h
      | some kv =>
        rw [hf] at h
        simp at h
        exact ⟨kv, List.mem_of_find?_eq_some hf, h⟩
    | null => simp at h
    | str s => simp at h
    | list l => simp at h
    | dict d => simp at h
  · simp at h
/-- Auxiliary: one pins-loop step preserves the index invariants: stored
indices enumerate the list, and the index map's values stay in range. -/
theorem parsePin_inv (c : Config) (acc : PinAcc) (origIndex : Nat) (v : Val)
    (acc2 : PinAcc)
    (hpins : ∀ (i : Nat) (h : i < acc.pins.length), acc.pins[i].index = i)
    (hmap : ∀ kv ∈ acc.indexMap, kv.2 < acc.pins.length)
    (hok : parsePin c acc origIndex v = .ok acc2) :
    (∀ (i : Nat) (h : i < acc2.pins.length), acc2.pins[i].index = i) ∧
    (∀ kv ∈ acc2.indexMap, kv.2 < acc2.pins.length) := by
  cases v with
  | dict kvs =>
    simp only [parsePin] at hok
    rcases PyResult.bind_ok hok with ⟨upt, hupt, hok2⟩
    rcases PyResult.bind_ok hok2 with ⟨sres, hsres, hok3⟩
    injection hok3 with h
    subst h
    dsimp only
    constructor
    · intro i h
      simp only [List.length_append, List.length_cons, List.length_nil] at h
      by_cases hi : i < acc.pins.length
      · rw [List.getElem_append_left hi]
        exact hpins i hi
      · have hieq : i = acc.pins.length := by omega
        subst hieq
        rw [List.getElem_append_right (by omega)]
        simp
    · intro kv hkv
      simp only [List.length_append, List.length_cons, List.length_nil]
      rcases List.mem_append.mp hkv with hold | hnew
      · have := hmap kv hold
        omega
      · simp only [List.mem_singleton] at hnew
        subst hnew
        simp
  | null =>
    simp only [parsePin] at hok
    injection hok with h
    subst h
    exact ⟨hpins, hmap⟩
  | int n =>
    simp only [parsePin] at hok
    injection hok with h
    subst h
    exact ⟨hpins, hmap⟩
  | str s =>
    simp only [parsePin] at hok
    injection hok with h
    subst h
    exact ⟨hpins, hmap⟩
  | list l =>
    simp only [parsePin] at hok
    injection hok with h
    subst h
    exact ⟨hpins, hmap⟩

/-- Auxiliary: the pins loop preserves the index invariants. -/
theorem parsePinsGo_inv (c : Config) (xs : List Val) (i0 : Nat) (acc acc2 : PinAcc)
    (hpins : ∀ (i : Nat) (h : i < acc.pins.length), acc.pins[i].index = i)
    (hmap : ∀ kv ∈ acc.indexMap, kv.2 < acc.pins.length)
    (hok : parsePinsGo c xs i0 acc = .ok acc2) :
    (∀ (i : Nat) (h : i < acc2.pins.length), acc2.pins[i].index = i) ∧
    (∀ kv ∈ acc2.indexMap, kv.2 < acc2.pins.length) := by
  induction xs generalizing i0 acc with
  | nil =>
    simp only [parsePinsGo] at hok
    injection hok with h
    subst h
    exact ⟨hpins, hmap⟩
  | cons v vs ih =>
    simp only [parsePinsGo] at hok
    rcases PyResult.bind_ok hok with ⟨mid, hmid, hrest⟩
    rcases parsePin_inv c acc i0 v mid hpins hmap hmid with ⟨h1, h2⟩
    exact ih (i0 + 1) mid h1 h2 hrest
/-- Auxiliary: one links-loop step only appends links whose endpoints are
values of the index map. -/
theorem parseLink_bounded (m : List (Nat × Nat)) (acc : List ParsedLink) (v : Val)
    (ls : List ParsedLink) (N : Nat)
    (hmap : ∀ kv ∈ m, kv.2 < N)
    (hacc : ∀ l ∈ acc, l.source < N ∧ l.target < N)
    (hok : parseLink m acc v = .ok ls) :
    ∀ l ∈ ls, l.source < N ∧ l.target < N := by
  cases v with
  | dict kvs =>
    simp only [parseLink] at hok
    split at hok
    · injection hok with h
      subst h
      exact hacc
    · rcases PyResult.bind_ok hok with ⟨s0, hs0, hok2⟩
      rcases PyResult.bind_ok hok2 with ⟨d0, hd0, hok3⟩
      cases s0 with
      | none =>
        cases d0 <;> (injection hok3 with h; subst h; exact hacc)
      | some a =>
        cases d0 with
        | none =>
          injection hok3 with h
          subst h
          exact hacc
        | some b =>
          injection hok3 with h
          subst h
          intro l hl
          rcases List.mem_append.mp hl with hold | hnew
          · exact hacc l hold
          · simp only [List.mem_singleton] at hnew
            subst hnew
            rcases mapGet_ok_some hs0 with ⟨kva, hkva, ha⟩
            rcases mapGet_ok_some hd0 with ⟨kvb, hkvb, hb⟩
            subst ha
            subst hb
            exact ⟨hmap kva hkva, hmap kvb hkvb⟩
  | null =>
    injection hok with h
    subst h
    exact hacc
  | int n =>
    injection hok with h
    subst h
    exact hacc
  | str s =>
    injection hok with h
    subst h
    exact hacc
  | list l =>
    injection hok with h
    subst h
    exact hacc

/-- Auxiliary: the links loop only emits links whose endpoints are values of
the index map. -/
theorem parseLinksGo_bounded (m : List (Nat × Nat)) (xs : List Val)
    (acc ls : List ParsedLink) (N : Nat)
    (hmap : ∀ kv ∈ m, kv.2 < N)
    (hacc : ∀ l ∈ acc, l.source < N ∧ l.target < N)
    (hok : parseLinksGo m xs acc = .ok ls) :
    ∀ l ∈ ls, l.source < N ∧ l.target < N := by
  induction xs generalizing acc with
  | nil =>
    simp only [parseLinksGo] at hok
    injection hok with h
    subst h
    exact hacc
  | cons v vs ih =>
    simp only [parseLinksGo] at hok
    rcases PyResult.bind_ok hok with ⟨mid, hmid, hrest⟩
    exact ih mid (parseLink_bounded m acc v mid N hmap hacc hmid) hrest

/-- Auxiliary: one routes-loop step only appends routes whose endpoints are
values of the index map. -/
theorem parseRoute_bounded (c : Config) (m : List (Nat × Nat))
    (pins : List ParsedPin) (acc : RouteAcc) (v : Val) (racc : RouteAcc) (N : Nat)
    (hmap : ∀ kv ∈ m, kv.2 < N)
    (hacc : ∀ r ∈ acc.routes, r.source < N ∧ r.target < N)
    (hok : parseRoute c m pins acc v = .ok racc) :
    ∀ r ∈ racc.routes, r.source < N ∧ r.target < N := by
  cases v with
  | dict kvs =>
    simp only [parseRoute] at hok
    split at hok
    · injection hok with h
      subst h
      exact hacc
    · split at hok
      · injection hok with h
        subst h
        exact hacc
      · rcases PyResult.bind_ok hok with ⟨t?, ht, hok2⟩
        cases t? with
        | none =>
          injection hok2 with h
          subst h
          exact hacc
        | some t =>
          rcases PyResult.bind_ok hok2 with ⟨s0, hs0, hok3⟩
          rcases PyResult.bind_ok hok3 with ⟨d0, hd0, hok4⟩
          cases s0 with
          | none =>
            cases d0 <;> (injection hok4 with h; subst h; exact hacc)
          | some a =>
            cases d0 with
            | none =>
              injection hok4 with h
              subst h
              exact hacc
            | some b =>
              rcases PyResult.bind_ok hok4 with ⟨u, hu, hok5⟩
              injection hok5 with h
              subst h
              intro r hr
              dsimp only at hr
              rcases List.mem_append.mp hr with hold | hnew
              · exact hacc r hold
              · simp only [List.mem_singleton] at hnew
                subst hnew
                rcases mapGet_ok_some hs0 with ⟨kva, hkva, ha⟩
                rcases mapGet_ok_some hd0 with ⟨kvb, hkvb, hb⟩
                subst ha
                subst hb
                exact ⟨hmap kva hkva, hmap kvb hkvb⟩
  | null =>
    injection hok with h
    subst h
    exact hacc
  | int n =>
    injection hok with h
    subst h
    exact hacc
  | str s =>
    injection hok with h
    subst h
    exact hacc
  | list l =>
    injection hok with h
    subst h
    exact hacc

/-- Auxiliary: the routes loop only emits routes whose endpoints are values
of the index map. -/
theorem parseRoutesGo_bounded (c : Config) (m : List (Nat × Nat))
    (pins : List ParsedPin) (xs : List Val) (acc racc : RouteAcc) (N : Nat)
    (hmap : ∀ kv ∈ m, kv.2 < N)
    (hacc : ∀ r ∈ acc.routes, r.source < N ∧ r.target < N)
    (hok : parseRoutesGo c m pins xs acc = .ok racc) :
    ∀ r ∈ racc.routes, r.source < N ∧ r.target < N := by
  induction xs generalizing acc with
  | nil =>
    simp only [parseRoutesGo] at hok
    injection hok with h
    subst h
    exact hacc
  | cons v vs ih =>
    simp only [parseRoutesGo] at hok
    rcases PyResult.bind_ok hok with ⟨mid, hmid, hrest⟩
    exact ih mid (parseRoute_bounded c m pins acc v mid N hmap hacc hmid) hrest

/-- C10: every successful parse yields an internally well-formed graph: the
i-th pin stores internal index i, and every link and every route has source
and target that are valid zero-based indices into the pin list. -/
theorem C10_parse_output_wellformed (data : Val) (config : Config) (g : ParseResult)
    (hok : parse_pi_json data config = .ok (some g)) :
    (∀ (i : Nat) (h : i < g.pins.length), g.pins[i].index = i) ∧
    (∀ l ∈ g.links, l.source < g.pins.length ∧ l.target < g.pins.length) ∧
    (∀ r ∈ g.routes, r.source < g.pins.length ∧ r.target < g.pins.length) := by
  cases data with
  | dict kvs =>
    simp only [parse_pi_json] at hok
    split at hok
    · rcases PyResult.bind_ok hok with ⟨acc, hacc, hok2⟩
      rcases PyResult.bind_ok hok2 with ⟨links, hlinks, hok3⟩
      rcases PyResult.bind_ok hok3 with ⟨racc, hracc, hok4⟩
      rcases PyResult.bind_ok hok4 with ⟨sc, hsc, hok5⟩
      rcases PyResult.bind_ok hok5 with ⟨sp, hsp, hok6⟩
      injection hok6 with h
      injection h with h2
      subst h2
      dsimp only
      have hinv := parsePinsGo_inv config _ 1 ⟨[], [], [], []⟩ acc
        (by intro i h; simp at h) (by intro kv hkv; simp at hkv) hacc
      refine ⟨hinv.1, ?_, ?_⟩
      · exact parseLinksGo_bounded acc.indexMap _ [] links acc.pins.length
          hinv.2 (by intro l hl; simp at hl) hlinks
      · exact parseRoutesGo_bounded config acc.indexMap acc.pins _
          ⟨[], acc.unknownCommodities⟩ racc acc.pins.length
          hinv.2 (by intro r hr; simp at hr) hracc
    · exact absurd hok (by simp)
  | null => exact absurd hok (by simp [parse_pi_json])
  | int n => exact absurd hok (by simp [parse_pi_json])
  | str s => exact absurd hok (by simp [parse_pi_json])
  | list l => exact absurd hok (by simp [parse_pi_json])
/-- Witness for C10 at a concrete two-pin record with one link and one
route. -/
theorem C10_witness :
    (∀ (i : Nat) (h : i <
        (parseResultC10Witness).pins.length), (parseResultC10Witness).pins[i].index = i) ∧
    (∀ l ∈ (parseResultC10Witness).links,
      l.source < (parseResultC10Witness).pins.length ∧
      l.target < (parseResultC10Witness).pins.length) ∧
    (∀ r ∈ (parseResultC10Witness).routes,
      r.source < (parseResultC10Witness).pins.length ∧
      r.target < (parseResultC10Witness).pins.length) :=
  C10_parse_output_wellformed
    (Val.dict
      [("P", Val.list [Val.dict [("T", Val.int 1001)],
                       Val.dict [("T", Val.int 2001), ("S", Val.int 3645)]]),
       ("L", Val.list [Val.dict [("S", Val.int 1), ("D", Val.int 2), ("Lv", Val.int 5)]]),
       ("R", Val.list [Val.dict [("S", Val.int 2), ("D", Val.int 1),
                                 ("T", Val.int 3645), ("Qty", Val.int 3000)]])])
    sampleConfig parseResultC10Witness rfl
/-- Auxiliary: the factory-category map only produces the three factory
categories. -/
theorem tier_cat_cases {t : Int} {cat : String}
    (h : TIER_TO_FACTORY_CATEGORY t = some cat) :
    cat = "Basic Industrial Facility" ∨ cat = "Advanced Industrial Facility" ∨
    cat = "High-Tech Industrial Facility" := by
  unfold TIER_TO_FACTORY_CATEGORY at h
  split at h
  · exact Or.inl (by injection h with h2; exact h2.symm)
  · split at h
    · exact Or.inr (Or.inl (by injection h with h2; exact h2.symm))
    · split at h
      · exact Or.inr (Or.inr (by injection h with h2; exact h2.symm))
      · simp at h

/-- Auxiliary: when all three factory categories resolve, every factory
category resolves through `byCategory`. -/
theorem byCategory_some {f : FactoryTypeIds}
    (hb : f.basic ≠ none) (ha : f.advanced ≠ none) (hh : f.hightech ≠ none)
    {t : Int} {cat : String} (h : TIER_TO_FACTORY_CATEGORY t = some cat) :
    ∃ fid, f.byCategory cat = some fid := by
  rcases tier_cat_cases h with h1 | h1 | h1 <;> subst h1
  · rcases Option.ne_none_iff_exists.mp hb with ⟨fid, hf⟩
    exact ⟨fid, by simp [FactoryTypeIds.byCategory, hf.symm]⟩
  · rcases Option.ne_none_iff_exists.mp ha with ⟨fid, hf⟩
    exact ⟨fid, by simp [FactoryTypeIds.byCategory, hf.symm]⟩
  · rcases Option.ne_none_iff_exists.mp hh with ⟨fid, hf⟩
    exact ⟨fid, by simp [FactoryTypeIds.byCategory, hf.symm]⟩

/-- Auxiliary: a valid request entry builds a factory pin of the generated
shape. -/
theorem buildFactoryPin_ok (c : Config) (pd : List (Int × RecipeInfo))
    (ftids : FactoryTypeIds) (name : String) (slot : Int × Int)
    (hv : validRequestEntry c pd name)
    (hb : ftids.basic ≠ none) (ha : ftids.advanced ≠ none)
    (hh : ftids.hightech ≠ none) :
    ∃ fid sid, buildFactoryPin c pd ftids name slot =
      .ok (Val.dict [("T", Val.int fid), ("S", Val.int sid),
                     ("La", Val.int slot.2), ("Lo", Val.int slot.1)], sid) ∧
      resolvedCommodity c sid ∧
      (∃ r, pdGet pd sid = some r ∧ ∀ i ∈ r.inputs, resolvedCommodity c i) := by
  rcases hv with ⟨sid, r, hname, hpd2, htier, hres, hinp⟩
  rcases Option.ne_none_iff_exists.mp htier with ⟨cat, hcat⟩
  rcases byCategory_some hb ha hh hcat.symm with ⟨fid, hfid⟩
  refine ⟨fid, sid, ?_, hres, r, hpd2, hinp⟩
  simp [buildFactoryPin, hname, hpd2, ← hcat, hfid]

/-- Auxiliary: one row of the slot loop consumes names against slots,
producing well-shaped factory pins and resolvable assignments, and hands
back the names beyond the row's capacity. -/
theorem buildRowFactories_ok (c : Config) (pd : List (Int × RecipeInfo))
    (ftids : FactoryTypeIds)
    (hb : ftids.basic ≠ none) (ha : ftids.advanced ≠ none)
    (hh : ftids.hightech ≠ none) :
    ∀ (slots : List (Int × Int)) (names : List String) (idx : Nat),
    (∀ nm ∈ names, validRequestEntry c pd nm) →
    ∃ pins idxs assigns,
      buildRowFactories c pd ftids slots names idx =
        .ok (pins, idxs, assigns, names.drop slots.length) ∧
      pins.length = min names.length slots.length ∧
      (∀ p ∈ pins, GoodRawPin c p) ∧
      (∀ p ∈ pins, ∃ sid : Int, pyGet p "S" = Val.int sid) ∧
      (∀ fa ∈ assigns, AssignOK c pd fa) := by
  intro slots
  induction slots with
  | nil =>
    intro names idx hnames
    cases names with
    | nil =>
      exact ⟨[], [], [], by simp [buildRowFactories], by simp, by simp, by simp, by simp⟩
    | cons name names =>
      exact ⟨[], [], [], by simp [buildRowFactories], by simp, by simp, by simp, by simp⟩
  | cons slot slots ih =>
    intro names idx hnames
    cases names with
    | nil =>
      exact ⟨[], [], [], by simp [buildRowFactories], by simp, by simp, by simp⟩
    | cons name names =>
      rcases buildFactoryPin_ok c pd ftids name slot
          (hnames name (by simp)) hb ha hh with ⟨fid, sid, hpin, hres, r, hpd2, hinp⟩
      rcases ih names (idx + 1) (fun nm hnm => hnames nm (by simp [hnm]))
        with ⟨pins, idxs, assigns, hrow, hlen, hgood, hsint, hass⟩
      refine ⟨Val.dict [("T", Val.int fid), ("S", Val.int sid),
          ("La", Val.int slot.2), ("Lo", Val.int slot.1)] :: pins,
        idx :: idxs, (idx, sid) :: assigns, ?_, ?_, ?_, ?_, ?_⟩
      · simp only [buildRowFactories]
        rw [hpin, hrow]
        rfl
      · simp only [List.length_cons, hlen]
        omega
      · intro p hp
        rcases List.mem_cons.mp hp with hp1 | hp1
        · subst hp1
          refine ⟨⟨_, rfl⟩, ⟨fid, rfl⟩, Or.inr ⟨sid, rfl, hres⟩⟩
        · exact hgood p hp1
      · intro p hp
        rcases List.mem_cons.mp hp with hp1 | hp1
        · subst hp1
          exact ⟨sid, rfl⟩
        · exact hsint p hp1
      · intro fa hfa
        rcases List.mem_cons.mp hfa with hfa1 | hfa1
        · subst hfa1
          exact ⟨r, hpd2, hres, hinp⟩
        · exact hass fa hfa1
/-- Auxiliary: the full slot loop assigns `min names slots` units across the
rows, all pins well-shaped and all assignments resolvable. -/
theorem buildAllRows_ok (c : Config) (pd : List (Int × RecipeInfo))
    (ftids : FactoryTypeIds)
    (hb : ftids.basic ≠ none) (ha : ftids.advanced ≠ none)
    (hh : ftids.hightech ≠ none) :
    ∀ (rows : List (List (Int × Int))) (names : List String) (idx : Nat),
    (∀ nm ∈ names, validRequestEntry c pd nm) →
    ∃ pins byRow assigns,
      buildAllRows c pd ftids rows names idx = .ok (pins, byRow, assigns) ∧
      pins.length = min names.length ((rows.map List.length).sum) ∧
      (∀ p ∈ pins, GoodRawPin c p) ∧
      (∀ p ∈ pins, ∃ sid : Int, pyGet p "S" = Val.int sid) ∧
      (∀ fa ∈ assigns, AssignOK c pd fa) := by
  intro rows
  induction rows with
  | nil =>
    intro names idx hnames
    exact ⟨[], [], [], by simp [buildAllRows], by simp, by simp, by simp, by simp⟩
  | cons row rows ih =>
    intro names idx hnames
    rcases buildRowFactories_ok c pd ftids hb ha hh row names idx hnames
      with ⟨pins1, idxs, assigns1, hrow, hlen1, hgood1, hsint1, hass1⟩
    rcases ih (names.drop row.length) (idx + pins1.length)
        (fun nm hnm => hnames nm (List.drop_subset _ _ hnm))
      with ⟨pins2, byRow2, assigns2, hall, hlen2, hgood2, hsint2, hass2⟩
    refine ⟨pins1 ++ pins2, idxs :: byRow2, assigns1 ++ assigns2, ?_, ?_, ?_, ?_, ?_⟩
    · simp only [buildAllRows]
      rw [hrow]
      dsimp only [Except.bind]
      rw [hall]
      rfl
    · simp only [List.length_append, hlen1, hlen2, List.length_drop,
        List.map_cons, List.sum_cons]
      omega
    · intro p hp
      rcases List.mem_append.mp hp with h1 | h1
      · exact hgood1 p h1
      · exact hgood2 p h1
    · intro p hp
      rcases List.mem_append.mp hp with h1 | h1
      · exact hsint1 p h1
      · exact hsint2 p h1
    · intro fa hfa
      rcases List.mem_append.mp hfa with h1 | h1
      · exact hass1 fa h1
      · exact hass2 fa h1

/-- Auxiliary: every link the generator emits is a dict with integer
endpoint fields. -/
theorem chainLinks_good (row : List Nat) :
    ∀ v ∈ chainLinks row, GoodRawLink v := by
  induction row with
  | nil => simp [chainLinks]
  | cons a tail ih =>
    cases tail with
    | nil => simp [chainLinks]
    | cons b rest =>
      intro v hv
      simp only [chainLinks, List.mem_cons] at hv
      rcases hv with hv | hv
      · subst hv
        exact ⟨⟨_, rfl⟩, ⟨_, rfl⟩, ⟨_, rfl⟩⟩
      · exact ih v hv

theorem buildLinks_good (byRow : List (List Nat)) (st lp : Int) :
    ∀ v ∈ buildLinks byRow st lp, GoodRawLink v := by
  intro v hv
  simp only [buildLinks, List.mem_append] at hv
  rcases hv with hv | hv
  · rcases List.mem_flatten.mp hv with ⟨ls, hls, hvls⟩
    rcases List.mem_map.mp hls with ⟨row, hrow, hrowls⟩
    subst hrowls
    cases row with
    | nil => simp [rowLinks] at hvls
    | cons first rest =>
      simp only [rowLinks, List.mem_append] at hvls
      rcases hvls with h1 | h1
      · exact chainLinks_good _ v h1
      · simp only [List.mem_singleton] at h1
        subst h1
        exact ⟨⟨_, rfl⟩, ⟨_, rfl⟩, ⟨_, rfl⟩⟩
  · simp only [List.mem_singleton] at hv
    subst hv
    exact ⟨⟨_, rfl⟩, ⟨_, rfl⟩, ⟨_, rfl⟩⟩

/-- Auxiliary: every route the generator emits is a dict with no explicit
endpoints, a two-element integer path, and a resolvable commodity id. -/
theorem factoryRoutes_good (c : Config) (pd : List (Int × RecipeInfo))
    (st lp : Int) (assigns : List (Nat × Int))
    (hass : ∀ fa ∈ assigns, AssignOK c pd fa) :
    ∀ v ∈ factoryRoutes pd st lp assigns, GoodRawRoute c v := by
  intro v hv
  rcases List.mem_flatten.mp hv with ⟨grp, hgrp, hvgrp⟩
  rcases List.mem_map.mp hgrp with ⟨fa, hfa, hfagrp⟩
  rcases hass fa hfa with ⟨r, hr, hres, hinp⟩
  subst hfagrp
  simp only [List.mem_cons] at hvgrp
  rcases hvgrp with h1 | h1
  · subst h1
    exact ⟨⟨_, rfl⟩, rfl, rfl, ⟨_, _, rfl⟩, ⟨fa.2, rfl, hres⟩⟩
  · rw [hr] at h1
    rcases List.mem_map.mp h1 with ⟨i, hi, hiv⟩
    subst hiv
    exact ⟨⟨_, rfl⟩, rfl, rfl, ⟨_, _, rfl⟩, ⟨i, rfl, hinp i hi⟩⟩
/-- Auxiliary: the flattened request list has one entry per requested unit. -/
theorem flat_length (counts : List (String × Nat)) :
    ((counts.map (fun nc => List.replicate nc.2 nc.1)).flatten).length
      = totalRequested counts := by
  simp [totalRequested, Function.comp_def]

/-- Auxiliary: names in the flattened request list are requested names. -/
theorem flat_mem (counts : List (String × Nat)) (c : Config)
    (pd : List (Int × RecipeInfo))
    (hvalid : ∀ nc ∈ counts, validRequestEntry c pd nc.1) :
    ∀ nm ∈ (counts.map (fun nc => List.replicate nc.2 nc.1)).flatten,
      validRequestEntry c pd nm := by
  intro nm hnm
  rcases List.mem_flatten.mp hnm with ⟨l, hl, hnml⟩
  rcases List.mem_map.mp hl with ⟨nc, hnc, hncl⟩
  subst hncl
  rw [List.eq_of_mem_replicate hnml]
  exact hvalid nc hnc

/-- Auxiliary: a generation request whose hypotheses all hold produces the
assembled record, with one well-shaped factory pin per requested unit and
resolvable assignments. -/
theorem generate_ok_structure (counts : List (String × Nat))
    (storage launchpad : Int) (c : Config) (pd : List (Int × RecipeInfo))
    (hpd : pd ≠ []) (hst : storage ≠ 0) (hlp : launchpad ≠ 0)
    (hcat : categoriesResolve c (inferPlanet c storage launchpad).2)
    (hvalid : ∀ nc ∈ counts, validRequestEntry c pd nc.1)
    (htot : totalRequested counts ≤ TOTAL_FACTORY_SLOTS) :
    ∃ facPins byRow assigns,
      generate_pi_layout counts storage launchpad c pd = .ok
        (mkGeneratedRecord storage launchpad facPins
          (buildLinks byRow 1 2) (factoryRoutes pd 1 2 assigns)
          (inferPlanet c storage launchpad).1) ∧
      facPins.length = totalRequested counts ∧
      (∀ p ∈ facPins, GoodRawPin c p) ∧
      (∀ p ∈ facPins, ∃ sid : Int, pyGet p "S" = Val.int sid) ∧
      (∀ fa ∈ assigns, AssignOK c pd fa) := by
  rcases hcat with ⟨hb, ha, hh⟩
  rcases buildAllRows_ok c pd (factoryTypeIds c (inferPlanet c storage launchpad).2)
      hb ha hh FACTORY_SLOTS_BY_ROW
      ((counts.map (fun nc => List.replicate nc.2 nc.1)).flatten) 2
      (flat_mem counts c pd hvalid)
    with ⟨pins, byRow, assigns, hall, hlen, hgood, hsint, hass⟩
  have hslots : ((FACTORY_SLOTS_BY_ROW.map List.length).sum) = TOTAL_FACTORY_SLOTS := rfl
  have hlen2 : pins.length = totalRequested counts := by
    rw [hlen, flat_length, hslots, Nat.min_eq_left htot]
  refine ⟨pins, byRow, assigns, ?_, hlen2, hgood, hsint, hass⟩
  unfold generate_pi_layout
  rw [if_neg hpd, if_neg (not_or.mpr ⟨hst, hlp⟩)]
  dsimp only
  rw [if_neg (not_or.mpr ⟨hb, not_or.mpr ⟨ha, hh⟩⟩)]
  have htot2 : ¬ (TOTAL_FACTORY_SLOTS < (counts.map (·.2)).sum) := by
    unfold totalRequested at htot
    omega
  rw [if_neg htot2, hall]
  dsimp only [Except.map]
  rw [mkGeneratedRecord, hlen2]
/-- Auxiliary: a resolvable commodity id resolves through `get_schematic`. -/
theorem resolved_get_schematic (c : Config) (sid : Int)
    (h : resolvedCommodity c sid) :
    c.get_schematic (Val.int sid) = some (c.get_commodity (Val.int sid)) := by
  unfold resolvedCommodity at h
  simp [Config.get_schematic, pyStr, h]

/-- Auxiliary: appending an integer keeps a value list all-integer. -/
theorem allInts_append_int (s : List Val) (n : Int) (h : allInts s = true) :
    allInts (s ++ [Val.int n]) = true := by
  induction s with
  | nil => simp [allInts]
  | cons v vs ih =>
    cases v with
    | int m => exact ih (by simpa [allInts] using h)
    | null => simp [allInts] at h
    | str a => simp [allInts] at h
    | list a => simp [allInts] at h
    | dict a => simp [allInts] at h

/-- Auxiliary: the Python set-add of an integer keeps the set all-integer. -/
theorem allInts_setAdd (s : List Val) (n : Int) (h : allInts s = true) :
    allInts (if s.any (scalarBeq (Val.int n)) then s else s ++ [Val.int n]) = true := by
  by_cases hany : s.any (scalarBeq (Val.int n)) = true
  · simpa [hany] using h
  · simpa [hany] using allInts_append_int s n h

/-- Auxiliary: appending one pin adds its schematic flag to the count. -/
theorem countSchematicPins_append (l : List ParsedPin) (p : ParsedPin) :
    countSchematicPins (l ++ [p]) =
      countSchematicPins l + (if p.schematic_id.isNull then 0 else 1) := by
  by_cases h : p.schematic_id.isNull
  · simp [countSchematicPins, List.filter_append, h]
  · simp [countSchematicPins, List.filter_append, h]

/-- Auxiliary: the pins loop on generator-shaped entries succeeds, adds one
parsed pin per entry and one schematic per schematic-bearing entry, leaves
the unresolved-commodity set unchanged, and keeps the
unresolved-placement-type set all-integer. -/
theorem parsePinsGo_good (c : Config) (xs : List Val) :
    ∀ (i0 : Nat) (acc : PinAcc),
    (∀ v ∈ xs, GoodRawPin c v) →
    allInts acc.unknownPinTypes = true →
    ∃ acc2, parsePinsGo c xs i0 acc = .ok acc2 ∧
      acc2.pins.length = acc.pins.length + xs.length ∧
      countSchematicPins acc2.pins = countSchematicPins acc.pins +
        (xs.filter (fun v => !(pyGet v "S").isNull)).length ∧
      acc2.unknownCommodities = acc.unknownCommodities ∧
      allInts acc2.unknownPinTypes = true := by
  induction xs with
  | nil =>
    intro i0 acc hxs hints
    exact ⟨acc, rfl, by simp, by simp, rfl, hints⟩
  | cons v vs ih =>
    intro i0 acc hxs hints
    rcases hxs v (by simp) with ⟨⟨kvs, hkvs⟩, ⟨fid, hT⟩, hS⟩
    subst hkvs
    have hTnull : (pyGet (Val.dict kvs) "T").isNull = false := by
      rw [hT]; rfl
    have hupt : ∃ upt, (if (c.get_pin_type (pyGet (Val.dict kvs) "T")).1 = "Unknown"
          then setAdd acc.unknownPinTypes (pyGet (Val.dict kvs) "T")
          else .ok acc.unknownPinTypes) = .ok upt ∧ allInts upt = true := by
      by_cases hcatu : (c.get_pin_type (pyGet (Val.dict kvs) "T")).1 = "Unknown"
      · refine ⟨if acc.unknownPinTypes.any (scalarBeq (Val.int fid))
            then acc.unknownPinTypes else acc.unknownPinTypes ++ [Val.int fid],
            ?_, allInts_setAdd _ _ hints⟩
        rw [if_pos hcatu, hT]
        rfl
      · exact ⟨acc.unknownPinTypes, by rw [if_neg hcatu], hints⟩
    rcases hupt with ⟨upt, hupt1, hupt2⟩
    have hsch : ∃ sname, (if (pyGet (Val.dict kvs) "S").isNull
          then PyResult.ok (acc.unknownCommodities, (none : Option String))
          else match c.get_schematic (pyGet (Val.dict kvs) "S") with
            | some name => PyResult.ok (acc.unknownCommodities, some name)
            | none => (setAdd acc.unknownCommodities (pyGet (Val.dict kvs) "S")).bind
                fun u => PyResult.ok (u, none)) =
          .ok (acc.unknownCommodities, sname) := by
      rcases hS with hS | ⟨sid, hS, hres⟩
      · exact ⟨none, by rw [hS]; rfl⟩
      · rw [hS]
        refine ⟨some (c.get_commodity (Val.int sid)), ?_⟩
        simp [Val.isNull, resolved_get_schematic c sid hres]
    rcases hsch with ⟨sname, hsch1⟩
    have hstep : parsePin c acc i0 (Val.dict kvs) = .ok
        ⟨acc.pins ++
            [⟨acc.pins.length, i0, pyGetD (Val.dict kvs) "La" (Val.int 0),
              pyGetD (Val.dict kvs) "Lo" (Val.int 0), pyGet (Val.dict kvs) "T",
              (c.get_pin_type (pyGet (Val.dict kvs) "T")).1 ++ " (" ++
                (c.get_pin_type (pyGet (Val.dict kvs) "T")).2 ++ ")",
              (c.get_pin_type (pyGet (Val.dict kvs) "T")).1,
              pyGet (Val.dict kvs) "S", sname⟩],
          upt, acc.unknownCommodities, acc.indexMap ++ [(i0, acc.pins.length)]⟩ := by
      simp only [parsePin, hTnull, Bool.false_eq_true, if_false]
      rw [hupt1]
      dsimp only [PyResult.bind]
      dsimp only [PyResult.bind] at hsch1
      rw [hsch1]
    obtain ⟨acc2, hrec, hlen, hcount, hucomm, hints2⟩ :=
      ih (i0 + 1)
        ⟨acc.pins ++
            [⟨acc.pins.length, i0, pyGetD (Val.dict kvs) "La" (Val.int 0),
              pyGetD (Val.dict kvs) "Lo" (Val.int 0), pyGet (Val.dict kvs) "T",
              (c.get_pin_type (pyGet (Val.dict kvs) "T")).1 ++ " (" ++
                (c.get_pin_type (pyGet (Val.dict kvs) "T")).2 ++ ")",
              (c.get_pin_type (pyGet (Val.dict kvs) "T")).1,
              pyGet (Val.dict kvs) "S", sname⟩],
          upt, acc.unknownCommodities, acc.indexMap ++ [(i0, acc.pins.length)]⟩
        (fun w hw => hxs w (by simp [hw])) hupt2
    refine ⟨acc2, ?_, ?_, ?_, by rw [hucomm], hints2⟩
    · simp only [parsePinsGo]
      rw [hstep]
      dsimp only [PyResult.bind]
      exact hrec
    · rw [hlen]
      simp only [List.length_append, List.length_cons, List.length_nil]
      omega
    · rw [hcount, countSchematicPins_append]
      by_cases hnull : (pyGet (Val.dict kvs) "S").isNull
      · simp [List.filter_cons, hnull]
      · simp [List.filter_cons, hnull]
        omega
/-- Auxiliary: `mapGet` on an integer key never raises. -/
theorem mapGet_int (m : List (Nat × Nat)) (n : Int) :
    mapGet m (Val.int n) =
      .ok ((m.find? (fun kv => (kv.1 : Int) == n)).map (·.2)) := rfl

/-- Auxiliary: one links-loop step on a generator-shaped link never raises. -/
theorem parseLink_ok (m : List (Nat × Nat)) (acc : List ParsedLink) (v : Val)
    (hv : GoodRawLink v) : ∃ ls, parseLink m acc v = .ok ls := by
  rcases hv with ⟨⟨kvs, hkvs⟩, ⟨a, hSa⟩, ⟨b, hDb⟩⟩
  subst hkvs
  simp only [parseLink, hSa, hDb, Val.isNull, mapGet_int]
  cases (m.find? (fun kv => (kv.1 : Int) == a)).map (·.2) with
  | none =>
    cases (m.find? (fun kv => (kv.1 : Int) == b)).map (·.2) with
    | none => exact ⟨acc, by simp [PyResult.bind]⟩
    | some y => exact ⟨acc, by simp [PyResult.bind]⟩
  | some x =>
    cases (m.find? (fun kv => (kv.1 : Int) == b)).map (·.2) with
    | none => exact ⟨acc, by simp [PyResult.bind]⟩
    | some y =>
      refine ⟨acc ++ [⟨x, y, pyGetD (Val.dict kvs) "Lv" (Val.int 0)⟩], ?_⟩
      simp [PyResult.bind]

/-- Auxiliary: the links loop on generator-shaped links never raises. -/
theorem parseLinksGo_ok (m : List (Nat × Nat)) (xs : List Val) :
    ∀ acc : List ParsedLink, (∀ v ∈ xs, GoodRawLink v) →
    ∃ ls, parseLinksGo m xs acc = .ok ls := by
  induction xs with
  | nil => intro acc hxs; exact ⟨acc, rfl⟩
  | cons v vs ih =>
    intro acc hxs
    rcases parseLink_ok m acc v (hxs v (by simp)) with ⟨mid, hmid⟩
    rcases ih mid (fun w hw => hxs w (by simp [hw])) with ⟨ls, hls⟩
    refine ⟨ls, ?_⟩
    simp only [parseLinksGo]
    rw [hmid]
    dsimp only [PyResult.bind]
    exact hls

/-- Auxiliary: one routes-loop step on a generator-shaped route succeeds and
leaves the unresolved-commodity set unchanged. -/
theorem parseRoute_pure (c : Config) (m : List (Nat × Nat))
    (pins : List ParsedPin) (acc : RouteAcc) (v : Val)
    (hv : GoodRawRoute c v) :
    ∃ rts, parseRoute c m pins acc v = .ok ⟨rts, acc.unknownCommodities⟩ := by
  rcases hv with ⟨⟨kvs, hkvs⟩, hS, hD, ⟨a, b, hP⟩, ⟨t, hT, hres⟩⟩
  subst hkvs
  have hpat : strContains (c.get_commodity (Val.int t))
      ("Unknown (" ++ pyStr (Val.int t) ++ ")") = false := hres
  cases hfa : (m.find? (fun kv => (kv.1 : Int) == a)).map (·.2) with
  | none =>
    exact ⟨acc.routes, by
      simp [parseRoute, hS, hD, hP, hT, Val.isNull, mapGet_int, hfa, hpat,
        PyResult.bind]⟩
  | some x =>
    cases hfb : (m.find? (fun kv => (kv.1 : Int) == b)).map (·.2) with
    | none =>
      exact ⟨acc.routes, by
        simp [parseRoute, hS, hD, hP, hT, Val.isNull, mapGet_int, hfa, hfb, hpat,
          PyResult.bind]⟩
    | some y =>
      refine ⟨acc.routes ++
        [⟨x, y, Val.int t, c.get_commodity (Val.int t),
          pyGetD (Val.dict kvs) "Qty" (Val.int 0)⟩], ?_⟩
      simp [parseRoute, hS, hD, hP, hT, Val.isNull, mapGet_int, hfa, hfb, hpat,
        PyResult.bind]

/-- Auxiliary: the routes loop on generator-shaped routes succeeds and
leaves the unresolved-commodity set unchanged. -/
theorem parseRoutesGo_pure (c : Config) (m : List (Nat × Nat))
    (pins : List ParsedPin) (xs : List Val) :
    ∀ acc : RouteAcc, (∀ v ∈ xs, GoodRawRoute c v) →
    ∃ rts, parseRoutesGo c m pins xs acc = .ok ⟨rts, acc.unknownCommodities⟩ := by
  induction xs with
  | nil => intro acc hxs; exact ⟨acc.routes, rfl⟩
  | cons v vs ih =>
    intro acc hxs
    rcases parseRoute_pure c m pins acc v (hxs v (by simp)) with ⟨rts1, hmid⟩
    rcases ih ⟨rts1, acc.unknownCommodities⟩ (fun w hw => hxs w (by simp [hw]))
      with ⟨rts, hls⟩
    refine ⟨rts, ?_⟩
    simp only [parseRoutesGo]
    rw [hmid]
    dsimp only [PyResult.bind]
    exact hls

/-- Auxiliary: sorting an all-integer population never raises. -/
theorem pySorted_allInts (xs : List Val) (h : allInts xs = true) :
    ∃ ys, pySorted xs = .ok ys := by
  unfold pySorted
  by_cases hl : xs.length ≤ 1
  · exact ⟨xs, by rw [if_pos hl]⟩
  · exact ⟨sortLe valLeInt xs, by rw [if_neg hl, if_pos h]⟩
/-- C2: a generation request that fits the slot capacity, over anchors,
registry, and recipe table that resolve every requested commodity, round
trips: the generated record parses into a graph whose production
(schematic-bearing) node count equals the total requested count and whose
unresolved-commodity set is empty. -/
theorem C2_roundtrip_production_count (counts : List (String × Nat))
    (storage launchpad : Int) (c : Config) (pd : List (Int × RecipeInfo))
    (hpd : pd ≠ []) (hst : storage ≠ 0) (hlp : launchpad ≠ 0)
    (hcat : categoriesResolve c (inferPlanet c storage launchpad).2)
    (hvalid : ∀ nc ∈ counts, validRequestEntry c pd nc.1)
    (htot : totalRequested counts ≤ TOTAL_FACTORY_SLOTS) :
    ∃ rec g, generate_pi_layout counts storage launchpad c pd = .ok rec ∧
      parse_pi_json rec c = .ok (some g) ∧
      productionNodeCount g = totalRequested counts ∧
      g.unknown_commodity = [] := by
  rcases generate_ok_structure counts storage launchpad c pd hpd hst hlp hcat hvalid htot
    with ⟨facPins, byRow, assigns, hgen, hlen, hgood, hsint, hass⟩
  have hgoodPins : ∀ v ∈ (Val.dict [("T", Val.int storage), ("La", Val.int 0), ("Lo", Val.int 0)]
        :: Val.dict [("T", Val.int launchpad), ("La", Val.int 8), ("Lo", Val.int 0)]
        :: facPins), GoodRawPin c v := by
    intro v hv
    rcases List.mem_cons.mp hv with h1 | hv2
    · subst h1
      exact ⟨⟨_, rfl⟩, ⟨storage, rfl⟩, Or.inl rfl⟩
    · rcases List.mem_cons.mp hv2 with h1 | hv3
      · subst h1
        exact ⟨⟨_, rfl⟩, ⟨launchpad, rfl⟩, Or.inl rfl⟩
      · exact hgood v hv3
  obtain ⟨acc2, hpinsOk, hpinsLen, hpinsCount, hpinsComm, hpinsInts⟩ :=
    parsePinsGo_good c _ 1 ⟨[], [], [], []⟩ hgoodPins rfl
  obtain ⟨ls, hlinksOk⟩ :=
    parseLinksGo_ok acc2.indexMap (buildLinks byRow 1 2) []
      (fun v hv => buildLinks_good byRow 1 2 v hv)
  obtain ⟨rts, hroutesOk⟩ :=
    parseRoutesGo_pure c acc2.indexMap acc2.pins (factoryRoutes pd 1 2 assigns)
      ⟨[], acc2.unknownCommodities⟩
      (fun v hv => factoryRoutes_good c pd 1 2 assigns hass v hv)
  obtain ⟨spt, hsptOk⟩ := pySorted_allInts acc2.unknownPinTypes hpinsInts
  have hcomm : acc2.unknownCommodities = [] := hpinsComm
  have hparse0 : parse_pi_json
      (mkGeneratedRecord storage launchpad facPins (buildLinks byRow 1 2)
        (factoryRoutes pd 1 2 assigns) (inferPlanet c storage launchpad).1) c =
    (parsePinsGo c (Val.dict [("T", Val.int storage), ("La", Val.int 0), ("Lo", Val.int 0)]
        :: Val.dict [("T", Val.int launchpad), ("La", Val.int 8), ("Lo", Val.int 0)]
        :: facPins) 1 ⟨[], [], [], []⟩).bind (fun acc =>
    (parseLinksGo acc.indexMap (buildLinks byRow 1 2) []).bind (fun links =>
    (parseRoutesGo c acc.indexMap acc.pins (factoryRoutes pd 1 2 assigns)
        ⟨[], acc.unknownCommodities⟩).bind (fun racc =>
    (pySorted racc.unknownCommodities).bind (fun sortedComm =>
    (pySorted acc.unknownPinTypes).bind (fun sortedPinT =>
    .ok (some
      { pins := acc.pins, links := links, routes := racc.routes,
        planet_id := Val.int (inferPlanet c storage launchpad).1,
        planet_name := c.get_planet_name
          (Val.int (inferPlanet c storage launchpad).1),
        unknown_commodity := sortedComm, unknown_pin_type := sortedPinT,
        cmdctr := Val.int DEFAULT_CMD_CTR_LVL, diameter := Val.int 100000,
        comment := Val.str ("Generated: " ++ toString facPins.length ++
          " Factories (Row Chain->ST->LP)") })))))) := rfl
  have hparse : parse_pi_json
      (mkGeneratedRecord storage launchpad facPins (buildLinks byRow 1 2)
        (factoryRoutes pd 1 2 assigns) (inferPlanet c storage launchpad).1) c =
    .ok (some
      { pins := acc2.pins, links := ls, routes := rts,
        planet_id := Val.int (inferPlanet c storage launchpad).1,
        planet_name := c.get_planet_name
          (Val.int (inferPlanet c storage launchpad).1),
        unknown_commodity := [], unknown_pin_type := spt,
        cmdctr := Val.int DEFAULT_CMD_CTR_LVL, diameter := Val.int 100000,
        comment := Val.str ("Generated: " ++ toString facPins.length ++
          " Factories (Row Chain->ST->LP)") }) := by
    rw [hparse0, hpinsOk]
    dsimp only [PyResult.bind]
    rw [hlinksOk]
    dsimp only [PyResult.bind]
    rw [hroutesOk]
    dsimp only [PyResult.bind]
    rw [hcomm]
    have hnil : pySorted [] = PyResult.ok ([] : List Val) := rfl
    rw [hnil]
    dsimp only [PyResult.bind]
    rw [hsptOk]
  refine ⟨_, _, hgen, hparse, ?_, rfl⟩
  have hfacFilter : facPins.filter (fun v => !(pyGet v "S").isNull) = facPins := by
    rw [List.filter_eq_self]
    intro v hv
    rcases hsint v hv with ⟨sid, hS⟩
    rw [hS]
    rfl
  have hcountPins : countSchematicPins acc2.pins = facPins.length := by
    rw [hpinsCount]
    have h1 : ((Val.dict [("T", Val.int storage), ("La", Val.int 0), ("Lo", Val.int 0)]
        :: Val.dict [("T", Val.int launchpad), ("La", Val.int 8), ("Lo", Val.int 0)]
        :: facPins).filter (fun v => !(pyGet v "S").isNull)) =
        facPins.filter (fun v => !(pyGet v "S").isNull) := rfl
    rw [h1, hfacFilter]
    simp [countSchematicPins]
  show productionNodeCount _ = totalRequested counts
  unfold productionNodeCount
  dsimp only
  rw [hcountPins, hlen]
/-- Helper for the round-trip witnesses: the Water request is valid over the
sample registry and recipe table. -/
theorem waterValid : validRequestEntry sampleConfig sampleRecipes "Water" := by
  refine ⟨3645, ⟨[2268], 1⟩, rfl, rfl, by decide, rfl, ?_⟩
  intro i hi
  simp only [List.mem_singleton] at hi
  subst hi
  exact rfl

/-- Helper for the round-trip witnesses: all three factory categories resolve
over the sample registry for the planet the anchors infer. -/
theorem sampleCats :
    categoriesResolve sampleConfig (inferPlanet sampleConfig 1001 1002).2 := by
  unfold categoriesResolve
  refine ⟨by decide, by decide, by decide⟩

/-- Witness for C2: two units of Water over the sample registry round-trip to
a graph with exactly two production nodes and no unresolved commodities. -/
theorem C2_witness :
    totalRequested [("Water", 2)] ≤ TOTAL_FACTORY_SLOTS ∧
    ∃ rec g,
      generate_pi_layout [("Water", 2)] 1001 1002 sampleConfig sampleRecipes = .ok rec ∧
      parse_pi_json rec sampleConfig = .ok (some g) ∧
      productionNodeCount g = totalRequested [("Water", 2)] ∧
      g.unknown_commodity = [] := by
  refine ⟨by decide, ?_⟩
  exact C2_roundtrip_production_count [("Water", 2)] 1001 1002 sampleConfig sampleRecipes
    (by simp [sampleRecipes]) (by decide) (by decide) sampleCats
    (by
      intro nc hnc
      simp only [List.mem_singleton] at hnc
      subst hnc
      exact waterValid)
    (by decide)

/-- C3: over any request that passes the generator preconditions (nonempty
recipe table, nonzero anchor ids, all factory categories resolvable, every
requested name valid), a total of exactly `TOTAL_FACTORY_SLOTS` requested
units succeeds, any larger total fails with a capacity error naming the
offending total and the maximum, and a successful generation never emits
more schematic-bearing placement entries than there are slots. -/
theorem C3_capacity_boundary (counts : List (String × Nat))
    (storage launchpad : Int) (c : Config) (pd : List (Int × RecipeInfo))
    (hpd : pd ≠ []) (hst : storage ≠ 0) (hlp : launchpad ≠ 0)
    (hcat : categoriesResolve c (inferPlanet c storage launchpad).2)
    (hvalid : ∀ nc ∈ counts, validRequestEntry c pd nc.1) :
    (totalRequested counts = TOTAL_FACTORY_SLOTS →
      ∃ rec, generate_pi_layout counts storage launchpad c pd = .ok rec) ∧
    (TOTAL_FACTORY_SLOTS < totalRequested counts →
      generate_pi_layout counts storage launchpad c pd =
        .error (.capacity (totalRequested counts) TOTAL_FACTORY_SLOTS)) ∧
    (∀ rec, generate_pi_layout counts storage launchpad c pd = .ok rec →
      rawProductionCount rec ≤ TOTAL_FACTORY_SLOTS) := by
  obtain ⟨hb, ha, hh⟩ := hcat
  have h2 : ¬ (storage = 0 ∨ launchpad = 0) := by
    push_neg
    exact ⟨hst, hlp⟩
  have h3 : ¬ ((factoryTypeIds c (inferPlanet c storage launchpad).2).basic = none ∨
      (factoryTypeIds c (inferPlanet c storage launchpad).2).advanced = none ∨
      (factoryTypeIds c (inferPlanet c storage launchpad).2).hightech = none) := by
    push_neg
    exact ⟨hb, ha, hh⟩
  have herr : TOTAL_FACTORY_SLOTS < totalRequested counts →
      generate_pi_layout counts storage launchpad c pd =
        .error (.capacity (totalRequested counts) TOTAL_FACTORY_SLOTS) := by
    intro hgt
    have hgt2 : TOTAL_FACTORY_SLOTS < (counts.map (fun nc => nc.2)).sum := hgt
    simp only [generate_pi_layout]
    rw [if_neg hpd, if_neg h2, if_neg h3, if_pos hgt2]
    rfl
  refine ⟨?_, herr, ?_⟩
  · intro heq
    rcases generate_ok_structure counts storage launchpad c pd hpd hst hlp
        ⟨hb, ha, hh⟩ hvalid (le_of_eq heq) with ⟨facPins, byRow, assigns, hgen, h5⟩
    exact ⟨_, hgen⟩
  · intro rec hok
    by_cases hle : totalRequested counts ≤ TOTAL_FACTORY_SLOTS
    · rcases generate_ok_structure counts storage launchpad c pd hpd hst hlp
          ⟨hb, ha, hh⟩ hvalid hle
        with ⟨facPins, byRow, assigns, hgen, hlen, hgood, hsint, hass⟩
      rw [hgen] at hok
      injection hok with h
      subst h
      have hfil : facPins.filter (fun v => !(pyGet v "S").isNull) = facPins := by
        rw [List.filter_eq_self]
        intro v hv
        rcases hsint v hv with ⟨sid, hS⟩
        rw [hS]
        rfl
      have hraw : rawProductionCount (mkGeneratedRecord storage launchpad facPins
          (buildLinks byRow 1 2) (factoryRoutes pd 1 2 assigns)
          (inferPlanet c storage launchpad).1) =
          (facPins.filter (fun v => !(pyGet v "S").isNull)).length := rfl
      rw [hraw, hfil, hlen]
      exact hle
    · exfalso
      rw [herr (by omega)] at hok
      exact Except.noConfusion hok

/-- Witness for C3: 21 units of Water generate successfully; 22 units fail
with the capacity error carrying the total 22 against the maximum 21. -/
theorem C3_witness :
    totalRequested [("Water", 21)] = TOTAL_FACTORY_SLOTS ∧
    (∃ rec, generate_pi_layout [("Water", 21)] 1001 1002 sampleConfig sampleRecipes =
      .ok rec) ∧
    generate_pi_layout [("Water", 22)] 1001 1002 sampleConfig sampleRecipes =
      .error (.capacity (totalRequested [("Water", 22)]) TOTAL_FACTORY_SLOTS) := by
  have hv21 : ∀ nc ∈ ([("Water", 21)] : List (String × Nat)),
      validRequestEntry sampleConfig sampleRecipes nc.1 := by
    intro nc hnc
    simp only [List.mem_singleton] at hnc
    subst hnc
    exact waterValid
  have hv22 : ∀ nc ∈ ([("Water", 22)] : List (String × Nat)),
      validRequestEntry sampleConfig sampleRecipes nc.1 := by
    intro nc hnc
    simp only [List.mem_singleton] at hnc
    subst hnc
    exact waterValid
  refine ⟨by decide, ?_, ?_⟩
  · exact (C3_capacity_boundary [("Water", 21)] 1001 1002 sampleConfig sampleRecipes
      (by simp [sampleRecipes]) (by decide) (by decide) sampleCats hv21).1 (by decide)
  · exact ((C3_capacity_boundary [("Water", 22)] 1001 1002 sampleConfig sampleRecipes
      (by simp [sampleRecipes]) (by decide) (by decide) sampleCats hv22).2).1 (by decide)

end EvePI
